import Mathlib

/-!
Verification of the research-orchestration state machine of
`backend/src/agent/claude_graph.py` (with the state schema of
`backend/src/agent/state.py` and defaults of
`backend/src/agent/configuration.py`).

The node functions are shallowly embedded: Python dicts become structures,
`dict.get(k, d)` on optional keys becomes `Option.getD`, LLM invocations
become oracle parameters (`Except` for structured-output calls that can
raise), and float scores become rationals.  The LangGraph driver is
embedded as a deterministic step function over a node position plus the
accumulated graph state, following the edge wiring at the bottom of
`claude_graph.py`: list-valued fields of `OverallState` carry the
`operator.add` (append) reducer, scalar fields are replaced, fan-out
branches are merged in dispatch (ascending branch-id) order, and the
reflection node's outputs are the transient per-cycle fields consumed by
the evaluation step of the same cycle.
-/

namespace ClaudeGraph

/-- A gathered web source (url/title record). -/
structure Source where
  url : String
  title : String
deriving Repr, DecidableEq

/-- The `Reflection` structured-output schema (tools_and_schemas) produced by
the reflection LLM call. -/
structure Reflection where
  is_sufficient : Bool
  knowledge_gap : String
  follow_up_queries : List String
deriving Repr, DecidableEq

/-- A `Send("web_research", {"search_query": ..., "id": ...})` dispatch. -/
structure Send where
  node : String
  search_query : String
  id : Int
deriving Repr, DecidableEq

/-- The value returned by a LangGraph routing function: either the name of a
single next node, or a list of `Send` dispatches (dynamic fan-out). -/
inductive Route where
  | next (node : String)
  | sends (tasks : List Send)
deriving Repr, DecidableEq

/-- One entry of the `source_credibility` list built by `validate_sources`. -/
structure SourceCredibility where
  source : Source
  credibility_score : ℚ
  analysis : String
deriving Repr, DecidableEq

/-- `ValidationState` from state.py (result of `validate_sources`). -/
structure ValidationState where
  validation_results : List String
  reliability_score : ℚ
  contradictions_found : List String
  source_credibility : List SourceCredibility
deriving Repr, DecidableEq

/-- `ReflectionState` from state.py (result of the `reflection` node). -/
structure ReflectionState where
  is_sufficient : Bool
  knowledge_gap : String
  follow_up_queries : List String
  research_loop_count : Int
  number_of_ran_queries : Int
deriving Repr, DecidableEq

/-- `WebSearchState` from state.py (input of one `web_research` branch). -/
structure WebSearchState where
  search_query : String
  id : Int
deriving Repr, DecidableEq

/-- `QueryGenerationState` from state.py (input of `continue_to_web_research`). -/
structure QueryGenerationState where
  search_query : List String
deriving Repr, DecidableEq

/-- The partial state returned by one `web_research` branch. -/
structure WebOutput where
  sources_gathered : List Source
  search_query : List String
  web_research_result : List String
deriving Repr, DecidableEq

/-- The partial state returned by `direct_llm_response` and by
`finalize_answer` (a message plus a `sources_gathered` contribution). -/
structure MessageOutput where
  messages : List String
  sources_gathered : List Source
deriving Repr, DecidableEq

/-- `Configuration` from configuration.py with its field defaults. -/
structure Configuration where
  number_of_initial_queries : Int := 3
  max_research_loops : Int := 2
  deep_research_mode : Bool := false
  deep_research_queries : Int := 8
  deep_research_loops : Int := 15
  anthropic_api_key : Option String := none
  claude_model_name : String := "claude-3-opus-20240229"
deriving Repr, DecidableEq

/-- The graph state (`OverallState` of state.py together with the
reflection-produced per-cycle fields read by `evaluate_research`).  Keys that
the Python code reads with `state.get(key)` / `state.get(key, default)` and
that are absent at run start are `Option`-valued; `research_loop_count` is
absent (`none`) until the first reflection sets it. -/
structure GraphState where
  messages : List String := []
  search_query : List String := []
  web_research_result : List String := []
  sources_gathered : List Source := []
  initial_search_query_count : Option Int := none
  max_research_loops : Option Int := none
  research_loop_count : Option Int := none
  deep_research_mode : Option Bool := none
  is_sufficient : Bool := false
  knowledge_gap : String := ""
  follow_up_queries : List String := []
  number_of_ran_queries : Int := 0
  reliability_score : ℚ := 1
  source_credibility : List SourceCredibility := []
deriving Repr, DecidableEq

/-- `route_search_mode` (claude_graph.py lines 43-51): read
`initial_search_query_count` with default `1`; route to the direct-response
node exactly when it is `0`. -/
def route_search_mode (state : GraphState) : String :=
  if state.initial_search_query_count.getD 1 = 0 then
    "direct_llm_response"
  else
    "generate_query"

/-- `direct_llm_response` (claude_graph.py lines 54-119): if the Anthropic
API key is not configured, return the fixed error message; otherwise return
the LLM's answer (abstracted as the oracle argument `llmAnswer`).  In both
branches `sources_gathered` is the empty list. -/
def direct_llm_response (state : GraphState) (config : Configuration)
    (llmAnswer : String) : MessageOutput :=
  if config.anthropic_api_key.isNone then
    { messages := ["Anthropic API key not configured. Please set the ANTHROPIC_API_KEY environment variable."]
      sources_gathered := [] }
  else
    { messages := [llmAnswer], sources_gathered := [] }

/-- `generate_query` (claude_graph.py lines 122-200): if the API key is
missing, return the fixed one-element error query list; otherwise return the
list of queries produced by the LLM.  The structured-output call, its JSON
fallback chain, and the final default all produce some list of strings, so
the whole LLM-dependent part is abstracted as the oracle list `llmQueries`. -/
def generate_query (state : GraphState) (config : Configuration)
    (llmQueries : List String) : List String :=
  if config.anthropic_api_key.isNone then
    ["Error: API key missing"]
  else
    llmQueries

/-- `continue_to_web_research` (claude_graph.py lines 203-211): one
`Send("web_research", ...)` per generated query, with `id = int(idx)` taken
from `enumerate`. -/
def continue_to_web_research (state : QueryGenerationState) : List Send :=
  state.search_query.enum.map fun p =>
    { node := "web_research", search_query := p.2, id := (p.1 : Int) }

/-- `web_research` (claude_graph.py lines 214-264), the placeholder
implementation: gathers no sources, re-appends its own query to
`search_query`, and contributes one placeholder summary. -/
def web_research (state : WebSearchState) : WebOutput :=
  { sources_gathered := []
    search_query := [state.search_query]
    web_research_result :=
      ["Web research for '" ++ state.search_query ++
        "' using Claude is pending integration with a compatible search tool. This step would normally fetch and summarize web results."] }

/-- `reflection` (claude_graph.py lines 267-333).  The structured-output LLM
call is the oracle argument `llm`; `Except.error` models the call raising
(malformed structured output).  If the API key is missing or the call
raises, the sentinel result has `is_sufficient = true` and no follow-up
queries.  In every branch `research_loop_count` is the incoming count
(default 0) plus one, and `number_of_ran_queries` is the length of the
accumulated `search_query` list. -/
def reflection (state : GraphState) (config : Configuration)
    (llm : Except String Reflection) : ReflectionState :=
  if config.anthropic_api_key.isNone then
    { is_sufficient := true
      knowledge_gap := "Anthropic API key not configured for reflection."
      follow_up_queries := []
      research_loop_count := state.research_loop_count.getD 0 + 1
      number_of_ran_queries := (state.search_query.length : Int) }
  else
    match llm with
    | Except.error e =>
      { is_sufficient := true
        knowledge_gap := "Error during reflection: " ++ e
        follow_up_queries := []
        research_loop_count := state.research_loop_count.getD 0 + 1
        number_of_ran_queries := (state.search_query.length : Int) }
    | Except.ok result =>
      { is_sufficient := result.is_sufficient
        knowledge_gap := result.knowledge_gap
        follow_up_queries := result.follow_up_queries
        research_loop_count := state.research_loop_count.getD 0 + 1
        number_of_ran_queries := (state.search_query.length : Int) }

/-- `validate_sources` (claude_graph.py lines 336-374): skip (returning
reliability 1 and empty lists) unless deep research mode is on and sources
were gathered; otherwise score every source with the fixed base credibility
0.8 and set `reliability_score` to the sum of the scores divided by
`max(len(source_credibility), 1)`. -/
def validate_sources (state : GraphState) (config : Configuration) :
    ValidationState :=
  if !(state.deep_research_mode.getD false) || state.sources_gathered.isEmpty then
    { validation_results := []
      reliability_score := 1
      contradictions_found := []
      source_credibility := [] }
  else
    let source_credibility : List SourceCredibility :=
      state.sources_gathered.map fun source =>
        { source := source
          credibility_score := 8/10
          analysis := "Source analysis would be performed here (Claude-specific if needed)" }
    let reliability_score : ℚ :=
      (source_credibility.map fun s => s.credibility_score).sum /
        (max source_credibility.length 1 : ℚ)
    { validation_results := []
      reliability_score := reliability_score
      contradictions_found := []
      source_credibility := source_credibility }

/-- `evaluate_research` (claude_graph.py lines 377-429).  Priority order of
the routing decision: first the deep-research validation guard
(`deep_research_mode` set, `sources_gathered` non-empty, loop count above
2), then finalization (`is_sufficient` or loop budget reached), else one
`Send` per non-blank follow-up query (Python string truthiness filters the
blank ones while `enumerate` still counts them), each with
`id = number_of_ran_queries + int(idx)`. -/
def evaluate_research (state : GraphState) (config : Configuration) : Route :=
  let max_research_loops :=
    state.max_research_loops.getD config.max_research_loops
  if state.deep_research_mode.getD false
      && !state.sources_gathered.isEmpty
      && state.research_loop_count.getD 0 > 2 then
    Route.next "validate_sources"
  else if state.is_sufficient
      || state.research_loop_count.getD 0 ≥ max_research_loops then
    Route.next "finalize_answer"
  else
    Route.sends <|
      (state.follow_up_queries.enum.filter fun p => p.2 != "").map fun p =>
        { node := "web_research"
          search_query := p.2
          id := state.number_of_ran_queries + (p.1 : Int) }

/-- `finalize_answer` (claude_graph.py lines 432-488): with no API key the
fixed degraded message, otherwise the LLM's final answer (oracle argument);
either way the node passes `sources_gathered` through as its contribution. -/
def finalize_answer (state : GraphState) (config : Configuration)
    (llmAnswer : String) : MessageOutput :=
  if config.anthropic_api_key.isNone then
    { messages := ["Anthropic API key not configured. Cannot finalize answer."]
      sources_gathered := state.sources_gathered }
  else
    { messages := [llmAnswer], sources_gathered := state.sources_gathered }

/-- Position of the run in the graph of claude_graph.py (lines 491-528).
`fanout tasks` is the barrier holding the dispatched `web_research`
branches; `halted` is the position after `evaluate_research` returned an
empty `Send` list, when no successor task exists and the run stops without
reaching `finalize_answer`; `done` is END. -/
inductive Pos where
  | start
  | direct
  | genQuery
  | fanout (tasks : List Send)
  | reflect
  | evaluate
  | validate
  | finalize
  | done
  | halted
deriving Repr, DecidableEq

/-- The external collaborators of one run: the answer texts, the generated
initial query list, and for each research cycle the outcome of the
reflection structured-output call (indexed by the loop count at the time of
the call). -/
structure Env where
  directAnswer : String := ""
  finalAnswer : String := ""
  genQueries : List String := []
  reflections : Nat → Except String Reflection

/-- One executor step, following the edges declared in claude_graph.py:
START routes via `route_search_mode`; `generate_query` fans out through
`continue_to_web_research`; a fan-out barrier runs every `web_research`
branch and merges the append-reducer contributions in dispatch order;
`reflection` writes the per-cycle fields; `evaluate_research` routes to
`validate_sources`, to `finalize_answer`, or to the next fan-out (an empty
`Send` list leaves no successor task and halts the run). -/
def step (env : Env) (config : Configuration) :
    Pos × GraphState → Pos × GraphState
  | (Pos.start, s) =>
    if route_search_mode s = "direct_llm_response" then (Pos.direct, s)
    else (Pos.genQuery, s)
  | (Pos.direct, s) =>
    let out := direct_llm_response s config env.directAnswer
    (Pos.done,
      { s with messages := s.messages ++ out.messages
               sources_gathered := s.sources_gathered ++ out.sources_gathered })
  | (Pos.genQuery, s) =>
    let qs := generate_query s config env.genQueries
    (Pos.fanout (continue_to_web_research { search_query := qs }),
      { s with search_query := s.search_query ++ qs })
  | (Pos.fanout tasks, s) =>
    let outs := tasks.map fun t =>
      web_research { search_query := t.search_query, id := t.id }
    (Pos.reflect,
      { s with
          sources_gathered :=
            s.sources_gathered ++ (outs.map fun o => o.sources_gathered).flatten
          search_query :=
            s.search_query ++ (outs.map fun o => o.search_query).flatten
          web_research_result :=
            s.web_research_result ++ (outs.map fun o => o.web_research_result).flatten })
  | (Pos.reflect, s) =>
    let r := reflection s config
      (env.reflections (s.research_loop_count.getD 0).toNat)
    (Pos.evaluate,
      { s with is_sufficient := r.is_sufficient
               knowledge_gap := r.knowledge_gap
               follow_up_queries := r.follow_up_queries
               research_loop_count := some r.research_loop_count
               number_of_ran_queries := r.number_of_ran_queries })
  | (Pos.evaluate, s) =>
    match evaluate_research s config with
    | Route.next target =>
      if target = "validate_sources" then (Pos.validate, s)
      else (Pos.finalize, s)
    | Route.sends [] => (Pos.halted, s)
    | Route.sends ts => (Pos.fanout ts, s)
  | (Pos.validate, s) =>
    let v := validate_sources s config
    (Pos.finalize,
      { s with reliability_score := v.reliability_score
               source_credibility := s.source_credibility ++ v.source_credibility })
  | (Pos.finalize, s) =>
    let out := finalize_answer s config env.finalAnswer
    (Pos.done,
      { s with messages := s.messages ++ out.messages
               sources_gathered := s.sources_gathered ++ out.sources_gathered })
  | (Pos.done, s) => (Pos.done, s)
  | (Pos.halted, s) => (Pos.halted, s)

/-- The run after `n` executor steps, starting at START. -/
def run (env : Env) (config : Configuration) (init : GraphState) (n : Nat) :
    Pos × GraphState :=
  (step env config)^[n] (Pos.start, init)

/-- The graph state at the beginning of a run: a fresh conversation plus the
caller-supplied parameters; every accumulator is empty and the loop counter
is absent. -/
def initState (msgs : List String) (iqc : Option Int) (mrl : Option Int)
    (deep : Option Bool) : GraphState :=
  { messages := msgs
    initial_search_query_count := iqc
    max_research_loops := mrl
    deep_research_mode := deep }

/-- How many of the first `n` executor steps executed the reflection node. -/
def reflectSteps (env : Env) (config : Configuration) (init : GraphState)
    (n : Nat) : Nat :=
  (List.range n).countP fun m => decide ((run env config init m).1 = Pos.reflect)

/-- How many of the first `n` executor steps executed the evaluation
(routing) step. -/
def evaluateSteps (env : Env) (config : Configuration) (init : GraphState)
    (n : Nat) : Nat :=
  (List.range n).countP fun m => decide ((run env config init m).1 = Pos.evaluate)

/-- An environment whose reflection oracle always parses and always asks for
one more non-blank follow-up query: the worst case for loop termination. -/
def insatiableEnv : Env :=
  { genQueries := ["seed query"]
    reflections := fun _ =>
      Except.ok
        { is_sufficient := false
          knowledge_gap := "gap"
          follow_up_queries := ["follow-up"] } }

/-- A configuration with an API key configured and all other defaults
(`max_research_loops = 2`). -/
def keyedConfig : Configuration := { anthropic_api_key := some "sk-test" }

/-- Environment used to exercise follow-up id assignment: the first
reflection returns follow-ups with a blank entry, the second returns one
more query. -/
def envC3 : Env :=
  { genQueries := ["q0"]
    reflections := fun j =>
      if j = 0 then
        Except.ok
          { is_sufficient := false
            knowledge_gap := "g"
            follow_up_queries := ["x", "", "y"] }
      else if j = 1 then
        Except.ok
          { is_sufficient := false
            knowledge_gap := "g"
            follow_up_queries := ["z"] }
      else
        Except.ok
          { is_sufficient := true, knowledge_gap := "", follow_up_queries := [] } }

/-- A configuration with a generous loop budget for the id-assignment run. -/
def cfgC3 : Configuration :=
  { max_research_loops := 5, anthropic_api_key := some "k" }

/-- Initial state of the id-assignment run (standard search mode). -/
def initC3 : GraphState := initState ["hi"] (some 1) none none

/-- A reflection-produced state whose follow-up list is non-empty but holds
only blank queries, with the loop budget not yet reached. -/
def blankFollowUpState : GraphState :=
  { research_loop_count := some 1
    is_sufficient := false
    follow_up_queries := ["", ""]
    number_of_ran_queries := 2 }

/-- A deep-research state with three gathered sources. -/
def deepSourcesState : GraphState :=
  { deep_research_mode := some true
    sources_gathered :=
      [{ url := "https://a.example", title := "A" },
       { url := "https://b.example", title := "B" },
       { url := "https://c.example", title := "C" }] }

section Lemmas

variable (env : Env) (config : Configuration) (init : GraphState)

/-- A run starts at START with the initial state. -/
theorem run_zero : run env config init 0 = (Pos.start, init) := rfl

/-- Unfolding one executor step at the end of the run prefix. -/
theorem run_succ (n : Nat) :
    run env config init (n + 1) = step env config (run env config init n) :=
  Function.iterate_succ_apply' _ _ _

/-- Unfolding one executor step when the current position is known. -/
theorem run_succ_pos (n : Nat) (p : Pos)
    (h : (run env config init n).1 = p) :
    run env config init (n + 1) =
      step env config (p, (run env config init n).2) := by
  rw [run_succ, ← h]

/-- The reflection node always increments the loop count by exactly one
(over the incoming value, defaulted to 0), in all three of its branches. -/
theorem reflection_research_loop_count (s : GraphState) (c : Configuration)
    (llm : Except String Reflection) :
    (reflection s c llm).research_loop_count =
      s.research_loop_count.getD 0 + 1 := by
  unfold reflection
  split
  · rfl
  · cases llm <;> rfl

/-- The reflection node always reports the length of the accumulated
`search_query` list as `number_of_ran_queries`. -/
theorem reflection_number_of_ran_queries (s : GraphState) (c : Configuration)
    (llm : Except String Reflection) :
    (reflection s c llm).number_of_ran_queries =
      (s.search_query.length : Int) := by
  unfold reflection
  split
  · rfl
  · cases llm <;> rfl

/-- With no API key configured, reflection degrades to the sentinel:
sufficient, no follow-up queries. -/
theorem reflection_sentinel_no_key (s : GraphState) (c : Configuration)
    (llm : Except String Reflection) (h : c.anthropic_api_key = none) :
    (reflection s c llm).is_sufficient = true ∧
      (reflection s c llm).follow_up_queries = [] := by
  unfold reflection
  rw [h]
  simp

/-- When the structured-output call raises, reflection degrades to the
sentinel: sufficient, no follow-up queries. -/
theorem reflection_sentinel_error (s : GraphState) (c : Configuration)
    (e : String) :
    (reflection s c (Except.error e)).is_sufficient = true ∧
      (reflection s c (Except.error e)).follow_up_queries = [] := by
  unfold reflection
  split <;> simp

/-- With an API key and a parsed result, reflection passes the structured
output through. -/
theorem reflection_ok (s : GraphState) (c : Configuration) (r : Reflection)
    (h : c.anthropic_api_key.isNone = false) :
    (reflection s c (Except.ok r)).is_sufficient = r.is_sufficient ∧
      (reflection s c (Except.ok r)).follow_up_queries = r.follow_up_queries := by
  unfold reflection
  rw [h]
  simp

/-- The boolean deep-research guard of `evaluate_research`, as a
proposition. -/
theorem deep_guard_iff (s : GraphState) :
    ((s.deep_research_mode.getD false && !s.sources_gathered.isEmpty &&
        decide (s.research_loop_count.getD 0 > 2)) = true) ↔
      (s.deep_research_mode.getD false = true ∧ s.sources_gathered ≠ [] ∧
        s.research_loop_count.getD 0 > 2) := by
  simp [List.isEmpty_iff, and_assoc]

/-- When the deep-research guard holds, `evaluate_research` selects
`validate_sources`, whatever the sufficiency flag and follow-up list say. -/
theorem evaluate_research_validate_of (s : GraphState) (c : Configuration)
    (h1 : s.deep_research_mode.getD false = true)
    (h2 : s.sources_gathered ≠ [])
    (h3 : s.research_loop_count.getD 0 > 2) :
    evaluate_research s c = Route.next "validate_sources" := by
  simp only [evaluate_research]
  split
  · rfl
  case isFalse hg => exact absurd ((deep_guard_iff s).mpr ⟨h1, h2, h3⟩) hg

/-- When the deep-research guard fails and the run is sufficient or out of
budget, `evaluate_research` selects `finalize_answer`. -/
theorem evaluate_research_finalize_of (s : GraphState) (c : Configuration)
    (hd : ¬(s.deep_research_mode.getD false = true ∧ s.sources_gathered ≠ [] ∧
        s.research_loop_count.getD 0 > 2))
    (h : s.is_sufficient = true ∨
        s.research_loop_count.getD 0 ≥ s.max_research_loops.getD c.max_research_loops) :
    evaluate_research s c = Route.next "finalize_answer" := by
  simp only [evaluate_research]
  split
  case isTrue hg => exact absurd ((deep_guard_iff s).mp hg) hd
  case isFalse hg =>
    split
    · rfl
    case isFalse h2 =>
      exfalso
      rcases h with h | h <;> simp [h] at h2

/-- When the deep-research guard fails, the run is not sufficient, and the
loop budget is not reached, `evaluate_research` dispatches one `Send` per
non-blank follow-up query. -/
theorem evaluate_research_continue_of (s : GraphState) (c : Configuration)
    (hd : ¬(s.deep_research_mode.getD false = true ∧ s.sources_gathered ≠ [] ∧
        s.research_loop_count.getD 0 > 2))
    (hs : s.is_sufficient = false)
    (hl : s.research_loop_count.getD 0 <
        s.max_research_loops.getD c.max_research_loops) :
    evaluate_research s c = Route.sends
      ((s.follow_up_queries.enum.filter fun p => p.2 != "").map fun p =>
        { node := "web_research", search_query := p.2,
          id := s.number_of_ran_queries + (p.1 : Int) }) := by
  simp only [evaluate_research]
  split
  case isTrue hg => exact absurd ((deep_guard_iff s).mp hg) hd
  case isFalse hg =>
    split
    case isTrue h2 =>
      exfalso
      rcases (by simpa using h2 : s.is_sufficient = true ∨
          s.research_loop_count.getD 0 ≥
            s.max_research_loops.getD c.max_research_loops) with h | h
      · exact absurd h (by simp [hs])
      · omega
    · rfl

/-- Whatever state it sees, when the loop count has reached the budget the
routing function returns a single next node that leads to finalization:
either `validate_sources` (whose only outgoing edge is `finalize_answer`)
or `finalize_answer` itself. -/
theorem evaluate_research_budget (s : GraphState) (c : Configuration)
    (h : s.research_loop_count.getD 0 ≥
        s.max_research_loops.getD c.max_research_loops) :
    evaluate_research s c = Route.next "validate_sources" ∨
      evaluate_research s c = Route.next "finalize_answer" := by
  simp only [evaluate_research]
  split
  · exact Or.inl rfl
  · split
    · exact Or.inr rfl
    case isFalse h2 => simp [h] at h2

/-- A sufficient reflection never dispatches further research branches:
the routing function returns `validate_sources` or `finalize_answer`. -/
theorem evaluate_research_sufficient (s : GraphState) (c : Configuration)
    (h : s.is_sufficient = true) :
    evaluate_research s c = Route.next "validate_sources" ∨
      evaluate_research s c = Route.next "finalize_answer" := by
  simp only [evaluate_research]
  split
  · exact Or.inl rfl
  · split
    · exact Or.inr rfl
    case isFalse h2 => simp [h] at h2

/-- The single-node routing decisions of `evaluate_research` are exactly
`validate_sources` and `finalize_answer`. -/
theorem evaluate_research_next_inv (s : GraphState) (c : Configuration)
    (t : String) (h : evaluate_research s c = Route.next t) :
    t = "validate_sources" ∨ t = "finalize_answer" := by
  simp only [evaluate_research] at h
  split at h
  · exact Or.inl (Route.next.inj h).symm
  · split at h
    · exact Or.inr (Route.next.inj h).symm
    · exact Route.noConfusion h

/-- Inversion of the fan-out branch of `evaluate_research`: a `sends`
decision implies the run was not sufficient, the loop budget was not
reached, and the tasks are the non-blank-filtered enumerated follow-ups. -/
theorem evaluate_research_sends_inv (s : GraphState) (c : Configuration)
    (ts : List Send) (h : evaluate_research s c = Route.sends ts) :
    s.is_sufficient = false ∧
      s.research_loop_count.getD 0 <
        s.max_research_loops.getD c.max_research_loops ∧
      ts = (s.follow_up_queries.enum.filter fun p => p.2 != "").map fun p =>
        { node := "web_research", search_query := p.2,
          id := s.number_of_ran_queries + (p.1 : Int) } := by
  simp only [evaluate_research] at h
  split at h
  · exact Route.noConfusion h
  · split at h
    · exact Route.noConfusion h
    case isFalse h2 =>
      simp only [Bool.or_eq_true, decide_eq_true_eq, not_or] at h2
      exact ⟨by simpa using h2.1, by omega, (Route.sends.inj h).symm⟩

/-- Filtering blank entries is the identity on a blank-free query list. -/
theorem enum_filter_of_nonblank (l : List String) (h : ∀ q ∈ l, q ≠ "") :
    (l.enum.filter fun p => p.2 != "") = l.enum := by
  rw [List.filter_eq_self]
  intro a ha
  have hmem : a.2 ∈ l := by
    rw [List.enum_eq_zip_range] at ha
    exact (List.of_mem_zip ha).2
  simpa using h a.2 hmem

/-- Exhaustive description of one executor step: the position at time `n`
determines the position and state at time `n + 1` according to the graph's
edges. -/
theorem step_cases (n : Nat) :
    ((run env config init n).1 = Pos.start ∧
      (run env config init (n + 1)).2 = (run env config init n).2 ∧
      ((route_search_mode (run env config init n).2 = "direct_llm_response" ∧
          (run env config init (n + 1)).1 = Pos.direct) ∨
        (route_search_mode (run env config init n).2 ≠ "direct_llm_response" ∧
          (run env config init (n + 1)).1 = Pos.genQuery))) ∨
    ((run env config init n).1 = Pos.direct ∧
      (run env config init (n + 1)).1 = Pos.done ∧
      (run env config init (n + 1)).2 =
        { (run env config init n).2 with
            messages := (run env config init n).2.messages ++
              (direct_llm_response (run env config init n).2 config
                env.directAnswer).messages
            sources_gathered := (run env config init n).2.sources_gathered ++
              (direct_llm_response (run env config init n).2 config
                env.directAnswer).sources_gathered }) ∨
    ((run env config init n).1 = Pos.genQuery ∧
      (run env config init (n + 1)).1 = Pos.fanout (continue_to_web_research
        { search_query :=
            generate_query (run env config init n).2 config env.genQueries }) ∧
      (run env config init (n + 1)).2 =
        { (run env config init n).2 with
            search_query := (run env config init n).2.search_query ++
              generate_query (run env config init n).2 config env.genQueries }) ∨
    (∃ ts, (run env config init n).1 = Pos.fanout ts ∧
      (run env config init (n + 1)).1 = Pos.reflect ∧
      (run env config init (n + 1)).2 =
        { (run env config init n).2 with
            sources_gathered := (run env config init n).2.sources_gathered ++
              ((ts.map fun t => web_research
                { search_query := t.search_query, id := t.id }).map
                  fun o => o.sources_gathered).flatten
            search_query := (run env config init n).2.search_query ++
              ((ts.map fun t => web_research
                { search_query := t.search_query, id := t.id }).map
                  fun o => o.search_query).flatten
            web_research_result := (run env config init n).2.web_research_result ++
              ((ts.map fun t => web_research
                { search_query := t.search_query, id := t.id }).map
                  fun o => o.web_research_result).flatten }) ∨
    ((run env config init n).1 = Pos.reflect ∧
      (run env config init (n + 1)).1 = Pos.evaluate ∧
      (run env config init (n + 1)).2 =
        { (run env config init n).2 with
            is_sufficient := (reflection (run env config init n).2 config
              (env.reflections
                ((run env config init n).2.research_loop_count.getD 0).toNat)).is_sufficient
            knowledge_gap := (reflection (run env config init n).2 config
              (env.reflections
                ((run env config init n).2.research_loop_count.getD 0).toNat)).knowledge_gap
            follow_up_queries := (reflection (run env config init n).2 config
              (env.reflections
                ((run env config init n).2.research_loop_count.getD 0).toNat)).follow_up_queries
            research_loop_count := some (reflection (run env config init n).2 config
              (env.reflections
                ((run env config init n).2.research_loop_count.getD 0).toNat)).research_loop_count
            number_of_ran_queries := (reflection (run env config init n).2 config
              (env.reflections
                ((run env config init n).2.research_loop_count.getD 0).toNat)).number_of_ran_queries }) ∨
    ((run env config init n).1 = Pos.evaluate ∧
      (run env config init (n + 1)).2 = (run env config init n).2 ∧
      ((evaluate_research (run env config init n).2 config =
            Route.next "validate_sources" ∧
          (run env config init (n + 1)).1 = Pos.validate) ∨
        (∃ t, evaluate_research (run env config init n).2 config = Route.next t ∧
          t ≠ "validate_sources" ∧
          (run env config init (n + 1)).1 = Pos.finalize) ∨
        (evaluate_research (run env config init n).2 config = Route.sends [] ∧
          (run env config init (n + 1)).1 = Pos.halted) ∨
        (∃ ts, evaluate_research (run env config init n).2 config = Route.sends ts ∧
          ts ≠ [] ∧ (run env config init (n + 1)).1 = Pos.fanout ts))) ∨
    ((run env config init n).1 = Pos.validate ∧
      (run env config init (n + 1)).1 = Pos.finalize ∧
      (run env config init (n + 1)).2 =
        { (run env config init n).2 with
            reliability_score :=
              (validate_sources (run env config init n).2 config).reliability_score
            source_credibility := (run env config init n).2.source_credibility ++
              (validate_sources (run env config init n).2 config).source_credibility }) ∨
    ((run env config init n).1 = Pos.finalize ∧
      (run env config init (n + 1)).1 = Pos.done ∧
      (run env config init (n + 1)).2 =
        { (run env config init n).2 with
            messages := (run env config init n).2.messages ++
              (finalize_answer (run env config init n).2 config
                env.finalAnswer).messages
            sources_gathered := (run env config init n).2.sources_gathered ++
              (finalize_answer (run env config init n).2 config
                env.finalAnswer).sources_gathered }) ∨
    ((run env config init n).1 = Pos.done ∧
      (run env config init (n + 1)).1 = Pos.done ∧
      (run env config init (n + 1)).2 = (run env config init n).2) ∨
    ((run env config init n).1 = Pos.halted ∧
      (run env config init (n + 1)).1 = Pos.halted ∧
      (run env config init (n + 1)).2 = (run env config init n).2) := by
  cases hp : (run env config init n).1 with
  | start =>
    rw [run_succ_pos env config init n _ hp]
    by_cases hr : route_search_mode (run env config init n).2 = "direct_llm_response"
    · exact Or.inl ⟨rfl, by simp [step, hr], Or.inl ⟨hr, by simp [step, hr]⟩⟩
    · exact Or.inl ⟨rfl, by simp [step, hr], Or.inr ⟨hr, by simp [step, hr]⟩⟩
  | direct =>
    rw [run_succ_pos env config init n _ hp]
    exact Or.inr (Or.inl ⟨rfl, rfl, rfl⟩)
  | genQuery =>
    rw [run_succ_pos env config init n _ hp]
    exact Or.inr (Or.inr (Or.inl ⟨rfl, rfl, rfl⟩))
  | fanout ts =>
    rw [run_succ_pos env config init n _ hp]
    exact Or.inr (Or.inr (Or.inr (Or.inl ⟨ts, rfl, rfl, rfl⟩)))
  | reflect =>
    rw [run_succ_pos env config init n _ hp]
    exact Or.inr (Or.inr (Or.inr (Or.inr (Or.inl ⟨rfl, rfl, rfl⟩))))
  | evaluate =>
    rw [run_succ_pos env config init n _ hp]
    refine Or.inr (Or.inr (Or.inr (Or.inr (Or.inr (Or.inl ⟨rfl, ?_, ?_⟩)))))
    · rcases he : evaluate_research (run env config init n).2 config with t | ts
      · simp only [step, he]
        split <;> rfl
      · cases ts <;> simp [step, he]
    · rcases he : evaluate_research (run env config init n).2 config with t | ts
      · by_cases ht : t = "validate_sources"
        · exact Or.inl ⟨by rw [ht], by simp [step, he, ht]⟩
        · exact Or.inr (Or.inl ⟨t, rfl, ht, by simp [step, he, ht]⟩)
      · cases ts with
        | nil => exact Or.inr (Or.inr (Or.inl ⟨rfl, by simp [step, he]⟩))
        | cons a l =>
          exact Or.inr (Or.inr (Or.inr ⟨a :: l, rfl, by simp, by simp [step, he]⟩))
  | validate =>
    rw [run_succ_pos env config init n _ hp]
    exact Or.inr (Or.inr (Or.inr (Or.inr (Or.inr (Or.inr (Or.inl ⟨rfl, rfl, rfl⟩))))))
  | finalize =>
    rw [run_succ_pos env config init n _ hp]
    exact Or.inr (Or.inr (Or.inr (Or.inr (Or.inr (Or.inr (Or.inr (Or.inl
      ⟨rfl, rfl, rfl⟩)))))))
  | done =>
    rw [run_succ_pos env config init n _ hp]
    exact Or.inr (Or.inr (Or.inr (Or.inr (Or.inr (Or.inr (Or.inr (Or.inr (Or.inl
      ⟨rfl, rfl, rfl⟩))))))))
  | halted =>
    rw [run_succ_pos env config init n _ hp]
    exact Or.inr (Or.inr (Or.inr (Or.inr (Or.inr (Or.inr (Or.inr (Or.inr (Or.inr
      ⟨rfl, rfl, rfl⟩))))))))

/-- The loop counter changes only at reflection steps, where it increases by
exactly one. -/
theorem loop_succ (n : Nat) :
    (run env config init (n + 1)).2.research_loop_count.getD 0 =
      (run env config init n).2.research_loop_count.getD 0 +
        (if (run env config init n).1 = Pos.reflect then 1 else 0) := by
  rcases step_cases env config init n with
    ⟨hp, hst, _⟩ | ⟨hp, _, hst⟩ | ⟨hp, _, hst⟩ | ⟨ts, hp, _, hst⟩ | ⟨hp, _, hst⟩ |
    ⟨hp, hst, _⟩ | ⟨hp, _, hst⟩ | ⟨hp, _, hst⟩ | ⟨hp, _, hst⟩ | ⟨hp, _, hst⟩ <;>
    rw [hst, hp] <;>
    simp [reflection_research_loop_count]

/-- The run-start parameters stored in the state never change during a run. -/
theorem config_fields_const (n : Nat) :
    (run env config init n).2.max_research_loops = init.max_research_loops ∧
      (run env config init n).2.deep_research_mode = init.deep_research_mode ∧
      (run env config init n).2.initial_search_query_count =
        init.initial_search_query_count := by
  induction n with
  | zero => exact ⟨rfl, rfl, rfl⟩
  | succ n ih =>
    rcases step_cases env config init n with
      ⟨hp, hst, _⟩ | ⟨hp, _, hst⟩ | ⟨hp, _, hst⟩ | ⟨ts, hp, _, hst⟩ | ⟨hp, _, hst⟩ |
      ⟨hp, hst, _⟩ | ⟨hp, _, hst⟩ | ⟨hp, _, hst⟩ | ⟨hp, _, hst⟩ | ⟨hp, _, hst⟩ <;>
      rw [hst] <;>
      simpa using ih

/-- Each `web_research` branch contributes exactly one entry back to the
accumulated `search_query` list. -/
theorem fanout_contrib_length (ts : List Send) :
    (((ts.map fun t => web_research { search_query := t.search_query, id := t.id }).map
        fun o => o.search_query).flatten).length = ts.length := by
  induction ts with
  | nil => rfl
  | cons a l ih =>
    simp only [List.map_cons, List.flatten_cons, List.length_append, ih]
    simp [web_research]
    omega

/-- The accumulated `search_query` list never shrinks. -/
theorem search_query_len_mono (n : Nat) :
    (run env config init n).2.search_query.length ≤
      (run env config init (n + 1)).2.search_query.length := by
  rcases step_cases env config init n with
    ⟨hp, hst, _⟩ | ⟨hp, _, hst⟩ | ⟨hp, _, hst⟩ | ⟨ts, hp, _, hst⟩ | ⟨hp, _, hst⟩ |
    ⟨hp, hst, _⟩ | ⟨hp, _, hst⟩ | ⟨hp, _, hst⟩ | ⟨hp, _, hst⟩ | ⟨hp, _, hst⟩ <;>
    rw [hst] <;>
    simp

/-- The accumulated `search_query` list never shrinks (many steps). -/
theorem search_query_len_mono_le (m n : Nat) (h : m ≤ n) :
    (run env config init m).2.search_query.length ≤
      (run env config init n).2.search_query.length := by
  induction n with
  | zero => simp_all
  | succ n ih =>
    rcases Nat.lt_or_ge m (n + 1) with hm | hm
    · exact le_trans (ih (by omega)) (search_query_len_mono env config init n)
    · have : m = n + 1 := by omega
      simp [this]

/-- Processing a fan-out barrier grows `search_query` by exactly the number
of dispatched branches. -/
theorem search_query_len_fanout (n : Nat) (ts : List Send)
    (h : (run env config init n).1 = Pos.fanout ts) :
    (run env config init (n + 1)).2.search_query.length =
      (run env config init n).2.search_query.length + ts.length := by
  rcases step_cases env config init n with
    ⟨hp, hst, _⟩ | ⟨hp, _, hst⟩ | ⟨hp, _, hst⟩ | ⟨ts', hp, _, hst⟩ | ⟨hp, _, hst⟩ |
    ⟨hp, hst, _⟩ | ⟨hp, _, hst⟩ | ⟨hp, _, hst⟩ | ⟨hp, _, hst⟩ | ⟨hp, _, hst⟩ <;>
    rw [h] at hp <;> try exact Pos.noConfusion hp
  obtain rfl : ts' = ts := (Pos.fanout.inj hp).symm
  rw [hst]
  simp only [List.length_append, fanout_contrib_length]

/-- A START position occurs only at time 0. -/
theorem start_only_zero (n : Nat) (h : (run env config init n).1 = Pos.start) :
    n = 0 := by
  cases n with
  | zero => rfl
  | succ n =>
    exfalso
    rcases step_cases env config init n with
      ⟨hp, hst, hr⟩ | ⟨hp, h2, hst⟩ | ⟨hp, h2, hst⟩ | ⟨ts, hp, h2, hst⟩ | ⟨hp, h2, hst⟩ |
      ⟨hp, hst, hr⟩ | ⟨hp, h2, hst⟩ | ⟨hp, h2, hst⟩ | ⟨hp, h2, hst⟩ | ⟨hp, h2, hst⟩
    · rcases hr with ⟨_, hd⟩ | ⟨_, hd⟩ <;> rw [h] at hd <;> exact Pos.noConfusion hd
    · rw [h] at h2; exact Pos.noConfusion h2
    · rw [h] at h2; exact Pos.noConfusion h2
    · rw [h] at h2; exact Pos.noConfusion h2
    · rw [h] at h2; exact Pos.noConfusion h2
    · rcases hr with ⟨_, hd⟩ | ⟨t, _, _, hd⟩ | ⟨_, hd⟩ | ⟨ts, _, _, hd⟩ <;>
        rw [h] at hd <;> exact Pos.noConfusion hd
    · rw [h] at h2; exact Pos.noConfusion h2
    · rw [h] at h2; exact Pos.noConfusion h2
    · rw [h] at h2; exact Pos.noConfusion h2
    · rw [h] at h2; exact Pos.noConfusion h2

/-- An evaluation position is always immediately preceded by a reflection
position. -/
theorem pred_evaluate (n : Nat)
    (h : (run env config init (n + 1)).1 = Pos.evaluate) :
    (run env config init n).1 = Pos.reflect := by
  rcases step_cases env config init n with
    ⟨hp, hst, hr⟩ | ⟨hp, h2, hst⟩ | ⟨hp, h2, hst⟩ | ⟨ts, hp, h2, hst⟩ | ⟨hp, h2, hst⟩ |
    ⟨hp, hst, hr⟩ | ⟨hp, h2, hst⟩ | ⟨hp, h2, hst⟩ | ⟨hp, h2, hst⟩ | ⟨hp, h2, hst⟩
  · rcases hr with ⟨_, hd⟩ | ⟨_, hd⟩ <;> rw [h] at hd <;> exact Pos.noConfusion hd
  · rw [h] at h2; exact Pos.noConfusion h2
  · rw [h] at h2; exact Pos.noConfusion h2
  · rw [h] at h2; exact Pos.noConfusion h2
  · exact hp
  · rcases hr with ⟨_, hd⟩ | ⟨t, _, _, hd⟩ | ⟨_, hd⟩ | ⟨ts, _, _, hd⟩ <;>
      rw [h] at hd <;> exact Pos.noConfusion hd
  · rw [h] at h2; exact Pos.noConfusion h2
  · rw [h] at h2; exact Pos.noConfusion h2
  · rw [h] at h2; exact Pos.noConfusion h2
  · rw [h] at h2; exact Pos.noConfusion h2

/-- A reflection position always follows immediately from a fan-out
barrier. -/
theorem pred_reflect (n : Nat)
    (h : (run env config init (n + 1)).1 = Pos.reflect) :
    ∃ ts, (run env config init n).1 = Pos.fanout ts := by
  rcases step_cases env config init n with
    ⟨hp, hst, hr⟩ | ⟨hp, h2, hst⟩ | ⟨hp, h2, hst⟩ | ⟨ts, hp, h2, hst⟩ | ⟨hp, h2, hst⟩ |
    ⟨hp, hst, hr⟩ | ⟨hp, h2, hst⟩ | ⟨hp, h2, hst⟩ | ⟨hp, h2, hst⟩ | ⟨hp, h2, hst⟩
  · rcases hr with ⟨_, hd⟩ | ⟨_, hd⟩ <;> rw [h] at hd <;> exact Pos.noConfusion hd
  · rw [h] at h2; exact Pos.noConfusion h2
  · rw [h] at h2; exact Pos.noConfusion h2
  · exact ⟨ts, hp⟩
  · rw [h] at h2; exact Pos.noConfusion h2
  · rcases hr with ⟨_, hd⟩ | ⟨t, _, _, hd⟩ | ⟨_, hd⟩ | ⟨ts, _, _, hd⟩ <;>
      rw [h] at hd <;> exact Pos.noConfusion hd
  · rw [h] at h2; exact Pos.noConfusion h2
  · rw [h] at h2; exact Pos.noConfusion h2
  · rw [h] at h2; exact Pos.noConfusion h2
  · rw [h] at h2; exact Pos.noConfusion h2

/-- A generate-query position always follows immediately from START. -/
theorem pred_genQuery (n : Nat)
    (h : (run env config init (n + 1)).1 = Pos.genQuery) :
    (run env config init n).1 = Pos.start := by
  rcases step_cases env config init n with
    ⟨hp, hst, hr⟩ | ⟨hp, h2, hst⟩ | ⟨hp, h2, hst⟩ | ⟨ts, hp, h2, hst⟩ | ⟨hp, h2, hst⟩ |
    ⟨hp, hst, hr⟩ | ⟨hp, h2, hst⟩ | ⟨hp, h2, hst⟩ | ⟨hp, h2, hst⟩ | ⟨hp, h2, hst⟩
  · exact hp
  · rw [h] at h2; exact Pos.noConfusion h2
  · rw [h] at h2; exact Pos.noConfusion h2
  · rw [h] at h2; exact Pos.noConfusion h2
  · rw [h] at h2; exact Pos.noConfusion h2
  · rcases hr with ⟨_, hd⟩ | ⟨t, _, _, hd⟩ | ⟨_, hd⟩ | ⟨ts, _, _, hd⟩ <;>
      rw [h] at hd <;> exact Pos.noConfusion hd
  · rw [h] at h2; exact Pos.noConfusion h2
  · rw [h] at h2; exact Pos.noConfusion h2
  · rw [h] at h2; exact Pos.noConfusion h2
  · rw [h] at h2; exact Pos.noConfusion h2

/-- A fan-out position arises either from the initial `generate_query`
fan-out or from a non-empty follow-up dispatch by `evaluate_research`. -/
theorem pred_fanout (n : Nat) (ts : List Send)
    (h : (run env config init (n + 1)).1 = Pos.fanout ts) :
    ((run env config init n).1 = Pos.genQuery ∧
      ts = continue_to_web_research
        { search_query :=
            generate_query (run env config init n).2 config env.genQueries } ∧
      (run env config init (n + 1)).2 =
        { (run env config init n).2 with
            search_query := (run env config init n).2.search_query ++
              generate_query (run env config init n).2 config env.genQueries }) ∨
    ((run env config init n).1 = Pos.evaluate ∧
      evaluate_research (run env config init n).2 config = Route.sends ts ∧
      ts ≠ [] ∧
      (run env config init (n + 1)).2 = (run env config init n).2) := by
  rcases step_cases env config init n with
    ⟨hp, hst, hr⟩ | ⟨hp, h2, hst⟩ | ⟨hp, h2, hst⟩ | ⟨ts', hp, h2, hst⟩ | ⟨hp, h2, hst⟩ |
    ⟨hp, hst, hr⟩ | ⟨hp, h2, hst⟩ | ⟨hp, h2, hst⟩ | ⟨hp, h2, hst⟩ | ⟨hp, h2, hst⟩
  · exfalso
    rcases hr with ⟨_, hd⟩ | ⟨_, hd⟩ <;> rw [h] at hd <;> exact Pos.noConfusion hd
  · rw [h] at h2; exact Pos.noConfusion h2
  · rw [h] at h2
    exact Or.inl ⟨hp, Pos.fanout.inj h2, hst⟩
  · rw [h] at h2; exact Pos.noConfusion h2
  · rw [h] at h2; exact Pos.noConfusion h2
  · rcases hr with ⟨_, hd⟩ | ⟨t, _, _, hd⟩ | ⟨_, hd⟩ | ⟨ts', he, hne, hd⟩
    · rw [h] at hd; exact Pos.noConfusion hd
    · rw [h] at hd; exact Pos.noConfusion hd
    · rw [h] at hd; exact Pos.noConfusion hd
    · rw [h] at hd
      obtain rfl : ts' = ts := (Pos.fanout.inj hd).symm
      exact Or.inr ⟨hp, he, hne, hst⟩
  · rw [h] at h2; exact Pos.noConfusion h2
  · rw [h] at h2; exact Pos.noConfusion h2
  · rw [h] at h2; exact Pos.noConfusion h2
  · rw [h] at h2; exact Pos.noConfusion h2

/-- A reflection position always steps to an evaluation position. -/
theorem forward_reflect (n : Nat)
    (h : (run env config init n).1 = Pos.reflect) :
    (run env config init (n + 1)).1 = Pos.evaluate := by
  rw [run_succ_pos env config init n _ h]
  rfl

/-- A fan-out barrier always steps to a reflection position. -/
theorem forward_fanout (n : Nat) (ts : List Send)
    (h : (run env config init n).1 = Pos.fanout ts) :
    (run env config init (n + 1)).1 = Pos.reflect := by
  rw [run_succ_pos env config init n _ h]
  rfl

/-- A validation position always steps to a finalization position. -/
theorem forward_validate (n : Nat)
    (h : (run env config init n).1 = Pos.validate) :
    (run env config init (n + 1)).1 = Pos.finalize := by
  rw [run_succ_pos env config init n _ h]
  rfl

/-- An evaluation that routes to a single node steps to `validate` or to
`finalize` accordingly, leaving the state unchanged. -/
theorem forward_evaluate_next (n : Nat) (t : String)
    (h : (run env config init n).1 = Pos.evaluate)
    (he : evaluate_research (run env config init n).2 config = Route.next t) :
    (run env config init (n + 1)).1 =
        (if t = "validate_sources" then Pos.validate else Pos.finalize) ∧
      (run env config init (n + 1)).2 = (run env config init n).2 := by
  rw [run_succ_pos env config init n _ h]
  constructor
  · simp only [step, he]
    split <;> simp_all
  · simp only [step, he]
    split <;> rfl

/-- An evaluation that dispatches a non-empty follow-up fan-out steps to the
corresponding fan-out barrier, leaving the state unchanged. -/
theorem forward_evaluate_sends (n : Nat) (ts : List Send)
    (h : (run env config init n).1 = Pos.evaluate)
    (he : evaluate_research (run env config init n).2 config = Route.sends ts)
    (hne : ts ≠ []) :
    (run env config init (n + 1)).1 = Pos.fanout ts ∧
      (run env config init (n + 1)).2 = (run env config init n).2 := by
  rw [run_succ_pos env config init n _ h]
  cases ts with
  | nil => exact absurd rfl hne
  | cons a l => exact ⟨by simp [step, he], by simp [step, he]⟩

/-- Counting reflection steps, unfolded by one. -/
theorem reflectSteps_succ (n : Nat) :
    reflectSteps env config init (n + 1) =
      reflectSteps env config init n +
        (if (run env config init n).1 = Pos.reflect then 1 else 0) := by
  unfold reflectSteps
  rw [List.range_succ, List.countP_append]
  simp [List.countP_cons]

/-- Counting evaluation steps, unfolded by one. -/
theorem evaluateSteps_succ (n : Nat) :
    evaluateSteps env config init (n + 1) =
      evaluateSteps env config init n +
        (if (run env config init n).1 = Pos.evaluate then 1 else 0) := by
  unfold evaluateSteps
  rw [List.range_succ, List.countP_append]
  simp [List.countP_cons]

/-- On a fresh run the loop counter equals the number of reflection steps
executed so far. -/
theorem loop_eq_reflectSteps (hinit : init.research_loop_count = none)
    (n : Nat) :
    (run env config init n).2.research_loop_count.getD 0 =
      (reflectSteps env config init n : Int) := by
  induction n with
  | zero =>
    have : (run env config init 0).2 = init := by rw [run_zero]
    rw [this, hinit]
    rfl
  | succ n ih =>
    rw [loop_succ, reflectSteps_succ, ih]
    split <;> push_cast <;> ring

/-- Evaluation steps and reflection steps alternate: within the first
`n + 1` steps there are as many evaluation steps as reflection steps within
the first `n`. -/
theorem evaluateSteps_shift (n : Nat) :
    evaluateSteps env config init (n + 1) = reflectSteps env config init n := by
  induction n with
  | zero =>
    have h0 : (run env config init 0).1 = Pos.start := by rw [run_zero]
    unfold evaluateSteps reflectSteps
    simp [List.countP_cons, h0]
  | succ n ih =>
    rw [evaluateSteps_succ, reflectSteps_succ, ih]
    congr 1
    by_cases h : (run env config init n).1 = Pos.reflect
    · rw [if_pos h, if_pos (forward_reflect env config init n h)]
    · rw [if_neg h, if_neg (fun hc => h (pred_evaluate env config init n hc))]

/-- Explicit description of the state at an evaluation position in terms of
the preceding reflection. -/
theorem evaluate_state (n : Nat)
    (h : (run env config init (n + 1)).1 = Pos.evaluate) :
    (run env config init (n + 1)).2 =
      { (run env config init n).2 with
          is_sufficient := (reflection (run env config init n).2 config
            (env.reflections
              ((run env config init n).2.research_loop_count.getD 0).toNat)).is_sufficient
          knowledge_gap := (reflection (run env config init n).2 config
            (env.reflections
              ((run env config init n).2.research_loop_count.getD 0).toNat)).knowledge_gap
          follow_up_queries := (reflection (run env config init n).2 config
            (env.reflections
              ((run env config init n).2.research_loop_count.getD 0).toNat)).follow_up_queries
          research_loop_count := some (reflection (run env config init n).2 config
            (env.reflections
              ((run env config init n).2.research_loop_count.getD 0).toNat)).research_loop_count
          number_of_ran_queries := (reflection (run env config init n).2 config
            (env.reflections
              ((run env config init n).2.research_loop_count.getD 0).toNat)).number_of_ran_queries } := by
  have hr := pred_evaluate env config init n h
  rcases step_cases env config init n with
    ⟨hp, hst, _⟩ | ⟨hp, _, hst⟩ | ⟨hp, _, hst⟩ | ⟨ts, hp, _, hst⟩ | ⟨hp, _, hst⟩ |
    ⟨hp, hst, _⟩ | ⟨hp, _, hst⟩ | ⟨hp, _, hst⟩ | ⟨hp, _, hst⟩ | ⟨hp, _, hst⟩ <;>
    [skip; skip; skip; skip; exact hst; skip; skip; skip; skip; skip] <;>
    · rw [hr] at hp
      exact Pos.noConfusion hp

/-- At an evaluation position `number_of_ran_queries` equals the length of
the accumulated `search_query` list, which the reflection step did not
modify. -/
theorem evaluate_nran (n : Nat)
    (h : (run env config init (n + 1)).1 = Pos.evaluate) :
    (run env config init (n + 1)).2.number_of_ran_queries =
        ((run env config init (n + 1)).2.search_query.length : Int) ∧
      (run env config init (n + 1)).2.search_query =
        (run env config init n).2.search_query := by
  rw [evaluate_state env config init n h]
  simp [reflection_number_of_ran_queries]

/-- On a fresh run with at least one allowed loop, the loop counter at any
evaluation position never exceeds the loop budget. -/
theorem loop_le_max_at_evaluate (hinit : init.research_loop_count = none)
    (hM : 1 ≤ init.max_research_loops.getD config.max_research_loops) :
    ∀ n, (run env config init n).1 = Pos.evaluate →
      (run env config init n).2.research_loop_count.getD 0 ≤
        init.max_research_loops.getD config.max_research_loops := by
  intro n
  induction n using Nat.strong_induction_on with
  | _ n ih =>
    intro h
    cases n with
    | zero =>
      rw [run_zero] at h
      exact Pos.noConfusion h
    | succ m =>
      have hr := pred_evaluate env config init m h
      have hl : (run env config init (m + 1)).2.research_loop_count.getD 0 =
          (run env config init m).2.research_loop_count.getD 0 + 1 := by
        rw [loop_succ]
        simp [hr]
      cases m with
      | zero =>
        rw [run_zero] at hr
        exact Pos.noConfusion hr
      | succ k =>
        obtain ⟨ts, hf⟩ := pred_reflect env config init k hr
        have hlf : (run env config init (k + 1)).2.research_loop_count.getD 0 =
            (run env config init k).2.research_loop_count.getD 0 := by
          rw [loop_succ, hf]
          simp
        cases k with
        | zero =>
          rw [run_zero] at hf
          exact Pos.noConfusion hf
        | succ j =>
          have hlj : (run env config init (j + 1)).2.research_loop_count.getD 0 =
              (run env config init j).2.research_loop_count.getD 0 := by
            rw [loop_succ]
            rcases pred_fanout env config init j ts hf with ⟨hg, _, _⟩ | ⟨he, _, _, _⟩
            · rw [hg]; simp
            · rw [he]; simp
          rcases pred_fanout env config init j ts hf with ⟨hg, _, _⟩ | ⟨he, hev, _, _⟩
          · -- initial fan-out: the loop counter is still at its initial 0
            cases j with
            | zero =>
              rw [run_zero] at hg
              exact Pos.noConfusion hg
            | succ i =>
              have hstart := pred_genQuery env config init i hg
              have hi := start_only_zero env config init i hstart
              subst hi
              have hst1 : (run env config init 1).2 = init := by
                rcases step_cases env config init 0 with
                  ⟨hp, hst, _⟩ | ⟨hp, _, _⟩ | ⟨hp, _, _⟩ | ⟨ts', hp, _, _⟩ | ⟨hp, _, _⟩ |
                  ⟨hp, _, _⟩ | ⟨hp, _, _⟩ | ⟨hp, _, _⟩ | ⟨hp, _, _⟩ | ⟨hp, _, _⟩
                · rw [hst, run_zero]
                · rw [run_zero] at hp; exact Pos.noConfusion hp
                · rw [run_zero] at hp; exact Pos.noConfusion hp
                · rw [run_zero] at hp; exact Pos.noConfusion hp
                · rw [run_zero] at hp; exact Pos.noConfusion hp
                · rw [run_zero] at hp; exact Pos.noConfusion hp
                · rw [run_zero] at hp; exact Pos.noConfusion hp
                · rw [run_zero] at hp; exact Pos.noConfusion hp
                · rw [run_zero] at hp; exact Pos.noConfusion hp
                · rw [run_zero] at hp; exact Pos.noConfusion hp
              rw [hl, hlf, hlj, hst1, hinit]
              simpa using hM
          · -- follow-up fan-out: the dispatching evaluation was under budget
            have hlt := (evaluate_research_sends_inv _ config _ hev).2.1
            rw [(config_fields_const env config init j).1] at hlt
            rw [hl, hlf, hlj]
            omega

/-- At every evaluation position of a run whose parsed reflections always
carry non-empty blank-free follow-up lists, the stored follow-up list is
blank-free, and non-empty whenever the sufficiency flag is down. -/
theorem evaluate_oracle_facts
    (horacle : ∀ j r, env.reflections j = Except.ok r →
      r.follow_up_queries ≠ [] ∧ ∀ q ∈ r.follow_up_queries, q ≠ "")
    (n : Nat) (h : (run env config init (n + 1)).1 = Pos.evaluate) :
    (∀ q ∈ (run env config init (n + 1)).2.follow_up_queries, q ≠ "") ∧
      ((run env config init (n + 1)).2.is_sufficient = false →
        (run env config init (n + 1)).2.follow_up_queries ≠ []) := by
  rw [evaluate_state env config init n h]
  dsimp only
  by_cases hk : config.anthropic_api_key = none
  · obtain ⟨h1, h2⟩ :=
      reflection_sentinel_no_key (run env config init n).2 config
        (env.reflections
          ((run env config init n).2.research_loop_count.getD 0).toNat) hk
    rw [h1, h2]
    simp
  · have hk' : config.anthropic_api_key.isNone = false := by
      cases hco : config.anthropic_api_key with
      | none => exact absurd hco hk
      | some k => rfl
    cases hllm : env.reflections
        ((run env config init n).2.research_loop_count.getD 0).toNat with
    | error e =>
      obtain ⟨h1, h2⟩ :=
        reflection_sentinel_error (run env config init n).2 config e
      rw [h1, h2]
      simp
    | ok r =>
      obtain ⟨h1, h2⟩ := reflection_ok (run env config init n).2 config r hk'
      rw [h1, h2]
      exact ⟨(horacle _ r hllm).2, fun _ => (horacle _ r hllm).1⟩

/-- An evaluation that routes to a single node is followed by a
finalization position within two steps, with the loop counter unchanged. -/
theorem finalize_after_next (n : Nat) (t : String)
    (h : (run env config init n).1 = Pos.evaluate)
    (he : evaluate_research (run env config init n).2 config = Route.next t)
    (hle : (run env config init n).2.research_loop_count.getD 0 ≤
      init.max_research_loops.getD config.max_research_loops) :
    ∃ m, n ≤ m ∧ (run env config init m).1 = Pos.finalize ∧
      (run env config init m).2.research_loop_count.getD 0 ≤
        init.max_research_loops.getD config.max_research_loops := by
  have l1 : (run env config init (n + 1)).2.research_loop_count.getD 0 =
      (run env config init n).2.research_loop_count.getD 0 := by
    rw [loop_succ, h]
    simp
  rcases evaluate_research_next_inv _ _ _ he with rfl | rfl
  · have h1 := forward_evaluate_next env config init n _ h he
    rw [if_pos rfl] at h1
    have h2 := forward_validate env config init (n + 1) h1.1
    have l2 : (run env config init (n + 2)).2.research_loop_count.getD 0 =
        (run env config init (n + 1)).2.research_loop_count.getD 0 := by
      rw [loop_succ, h1.1]
      simp
    exact ⟨n + 2, by omega, h2, by rw [l2, l1]; exact hle⟩
  · have h1 := forward_evaluate_next env config init n _ h he
    rw [if_neg (by decide)] at h1
    exact ⟨n + 1, by omega, h1.1, by rw [l1]; exact hle⟩

/-- From any evaluation position of a fresh run whose parsed reflections
always demand more research through non-empty blank-free follow-up lists,
the run still reaches a finalization position, with the loop counter within
the budget. -/
theorem reach_finalize_from_evaluate (hinit : init.research_loop_count = none)
    (hM : 1 ≤ init.max_research_loops.getD config.max_research_loops)
    (horacle : ∀ j r, env.reflections j = Except.ok r →
      r.follow_up_queries ≠ [] ∧ ∀ q ∈ r.follow_up_queries, q ≠ "") :
    ∀ fuel n, (run env config init n).1 = Pos.evaluate →
      (init.max_research_loops.getD config.max_research_loops -
        (run env config init n).2.research_loop_count.getD 0).toNat ≤ fuel →
      ∃ m, n ≤ m ∧ (run env config init m).1 = Pos.finalize ∧
        (run env config init m).2.research_loop_count.getD 0 ≤
          init.max_research_loops.getD config.max_research_loops := by
  intro fuel
  induction fuel with
  | zero =>
    intro n h hfuel
    rcases he : evaluate_research (run env config init n).2 config with t | ts
    · exact finalize_after_next env config init n t h he
        (loop_le_max_at_evaluate env config init hinit hM n h)
    · exfalso
      have hlt := (evaluate_research_sends_inv _ config _ he).2.1
      rw [(config_fields_const env config init n).1] at hlt
      omega
  | succ f ih =>
    intro n h hfuel
    rcases he : evaluate_research (run env config init n).2 config with t | ts
    · exact finalize_after_next env config init n t h he
        (loop_le_max_at_evaluate env config init hinit hM n h)
    · obtain ⟨hsuff, hlt, hts⟩ := evaluate_research_sends_inv _ config _ he
      rw [(config_fields_const env config init n).1] at hlt
      cases n with
      | zero =>
        rw [run_zero] at h
        exact Pos.noConfusion h
      | succ p =>
        have hof := evaluate_oracle_facts env config init horacle p h
        have hne : ts ≠ [] := by
          intro hcon
          rw [hts, enum_filter_of_nonblank _ hof.1] at hcon
          have hlen := congrArg List.length hcon
          simp only [List.length_map, List.enum_length, List.length_nil] at hlen
          exact (hof.2 hsuff) (List.length_eq_zero.mp hlen)
        obtain ⟨hf1, hfst⟩ := forward_evaluate_sends env config init _ _ h he hne
        have hr2 := forward_fanout env config init _ ts hf1
        have he3 := forward_reflect env config init _ hr2
        have l1 : (run env config init (p + 2)).2.research_loop_count.getD 0 =
            (run env config init (p + 1)).2.research_loop_count.getD 0 := by
          rw [loop_succ, h]
          simp
        have l2 : (run env config init (p + 3)).2.research_loop_count.getD 0 =
            (run env config init (p + 2)).2.research_loop_count.getD 0 := by
          rw [loop_succ, hf1]
          simp
        have l3 : (run env config init (p + 4)).2.research_loop_count.getD 0 =
            (run env config init (p + 3)).2.research_loop_count.getD 0 + 1 := by
          rw [loop_succ, hr2]
          simp
        obtain ⟨m, hm, hfin, hml⟩ := ih (p + 4) he3 (by omega)
        exact ⟨m, by omega, hfin, hml⟩

/-- The initial fan-out carries the branch ids `0 .. N-1`, one per query. -/
theorem continue_to_web_research_ids (qs : List String) :
    (continue_to_web_research { search_query := qs }).map Send.id =
        (List.range qs.length).map Int.ofNat ∧
      (continue_to_web_research { search_query := qs }).length = qs.length := by
  constructor
  · unfold continue_to_web_research
    rw [List.map_map, ← List.enum_map_fst qs, List.map_map]
    rfl
  · simp [continue_to_web_research]

/-- At every evaluation position of a run whose parsed reflections are
blank-free, the stored follow-up list is blank-free. -/
theorem evaluate_blankfree
    (hbf : ∀ j r, env.reflections j = Except.ok r →
      ∀ q ∈ r.follow_up_queries, q ≠ "")
    (n : Nat) (h : (run env config init (n + 1)).1 = Pos.evaluate) :
    ∀ q ∈ (run env config init (n + 1)).2.follow_up_queries, q ≠ "" := by
  rw [evaluate_state env config init n h]
  dsimp only
  by_cases hk : config.anthropic_api_key = none
  · rw [(reflection_sentinel_no_key (run env config init n).2 config
      (env.reflections
        ((run env config init n).2.research_loop_count.getD 0).toNat) hk).2]
    simp
  · have hk' : config.anthropic_api_key.isNone = false := by
      cases hco : config.anthropic_api_key with
      | none => exact absurd hco hk
      | some k => rfl
    cases hllm : env.reflections
        ((run env config init n).2.research_loop_count.getD 0).toNat with
    | error e =>
      rw [(reflection_sentinel_error (run env config init n).2 config e).2]
      simp
    | ok r =>
      rw [(reflection_ok (run env config init n).2 config r hk').2]
      exact hbf _ r hllm

/-- When the follow-up list is blank-free, the dispatched follow-up ids are
`number_of_ran_queries + i` for `i` below the list length. -/
theorem sends_ids (s : GraphState) (c : Configuration) (ts : List Send)
    (he : evaluate_research s c = Route.sends ts)
    (hbf : ∀ q ∈ s.follow_up_queries, q ≠ "") :
    ts.map Send.id =
      (List.range s.follow_up_queries.length).map
        fun i : Nat => s.number_of_ran_queries + (i : Int) := by
  obtain ⟨-, -, hts⟩ := evaluate_research_sends_inv _ _ _ he
  rw [hts, enum_filter_of_nonblank _ hbf, List.map_map, ← List.enum_map_fst
    s.follow_up_queries, List.map_map]
  rfl

/-- When the follow-up list is blank-free, the dispatch has exactly one
branch per follow-up query. -/
theorem sends_length (s : GraphState) (c : Configuration) (ts : List Send)
    (he : evaluate_research s c = Route.sends ts)
    (hbf : ∀ q ∈ s.follow_up_queries, q ≠ "") :
    ts.length = s.follow_up_queries.length := by
  obtain ⟨-, -, hts⟩ := evaluate_research_sends_inv _ _ _ he
  rw [hts, enum_filter_of_nonblank _ hbf]
  simp

/-- An id occurring in a fan-out whose ids are `base + (0 .. len-1)` lies in
that interval. -/
theorem id_mem_bounds (ts : List Send) (base : Int)
    (hids : ts.map Send.id =
      (List.range ts.length).map fun i : Nat => base + (i : Int))
    (t : Send) (ht : t ∈ ts) :
    base ≤ t.id ∧ t.id < base + (ts.length : Int) := by
  have hm : t.id ∈ ts.map Send.id := List.mem_map_of_mem _ ht
  rw [hids] at hm
  obtain ⟨i, hi, hei⟩ := List.mem_map.mp hm
  have hilt : i < ts.length := List.mem_range.mp hi
  omega

/-- Consecutive ids are pairwise distinct within one fan-out. -/
theorem ids_nodup (ts : List Send) (base : Int)
    (hids : ts.map Send.id =
      (List.range ts.length).map fun i : Nat => base + (i : Int)) :
    (ts.map Send.id).Nodup := by
  rw [hids]
  exact (List.nodup_range _).map fun a b hab => by omega

/-- Every fan-out of a blank-free run carries ids `base + (0 .. len-1)`
where `base` is non-negative, the interval ends no later than the length of
the accumulated `search_query` list right after the barrier, and — except
for the initial fan-out at time 2 — starts at the current length of that
list. -/
theorem fanout_ids_range
    (hbf : ∀ j r, env.reflections j = Except.ok r →
      ∀ q ∈ r.follow_up_queries, q ≠ "")
    (n : Nat) (ts : List Send)
    (h : (run env config init n).1 = Pos.fanout ts) :
    ∃ base : Int,
      ts.map Send.id = ((List.range ts.length).map fun i : Nat => base + (i : Int)) ∧
      0 ≤ base ∧
      base + (ts.length : Int) ≤
        ((run env config init (n + 1)).2.search_query.length : Int) ∧
      (((run env config init n).2.search_query.length : Int) ≤ base ∨
        (n = 2 ∧ base = 0)) := by
  have hgrow := search_query_len_fanout env config init n ts h
  cases n with
  | zero =>
    rw [run_zero] at h
    exact Pos.noConfusion h
  | succ p =>
    rcases pred_fanout env config init p ts h with ⟨hg, hts, _⟩ | ⟨he, hev, _, hst⟩
    · -- initial fan-out from generate_query
      have hp1 : p = 1 := by
        cases p with
        | zero =>
          rw [run_zero] at hg
          exact Pos.noConfusion hg
        | succ i =>
          have := start_only_zero env config init i
            (pred_genQuery env config init i hg)
          omega
      refine ⟨0, ?_, le_refl 0, ?_, Or.inr ⟨by omega, rfl⟩⟩
      · rw [hts]
        rw [(continue_to_web_research_ids _).1, (continue_to_web_research_ids _).2]
        simp
      · rw [hgrow]
        push_cast
        omega
    · -- follow-up fan-out from evaluate_research
      cases p with
      | zero =>
        rw [run_zero] at he
        exact Pos.noConfusion he
      | succ q =>
        have hbfq := evaluate_blankfree env config init hbf q he
        have hids := sends_ids _ config ts hev hbfq
        have hlen := sends_length _ config ts hev hbfq
        have hnr := evaluate_nran env config init q he
        refine ⟨(run env config init (q + 1)).2.number_of_ran_queries, ?_, ?_, ?_, Or.inl ?_⟩
        · rw [hids, hlen]
        · rw [hnr.1]
          positivity
        · rw [hgrow, hst, hnr.1]
          push_cast
          omega
        · rw [hst, hnr.1]

/-- The mean of a constant list is the constant. -/
theorem map_const_sum_div {α : Type} (l : List α) (hl : l ≠ []) (x : ℚ) :
    (l.map fun _ => x).sum / (l.length : ℚ) = x := by
  have hn : l.length ≠ 0 := by simpa [List.length_eq_zero] using hl
  rw [List.map_const', List.sum_replicate, nsmul_eq_mul, mul_comm, mul_div_assoc,
    div_self (by exact_mod_cast hn), mul_one]

/-- When deep research mode is off or no source was gathered,
`validate_sources` skips, with vacuous full reliability. -/
theorem validate_sources_skip (s : GraphState) (c : Configuration)
    (h : s.sources_gathered = [] ∨ s.deep_research_mode.getD false = false) :
    validate_sources s c =
      { validation_results := []
        reliability_score := 1
        contradictions_found := []
        source_credibility := [] } := by
  simp only [validate_sources]
  split
  · rfl
  case isFalse hc =>
    exfalso
    apply hc
    rcases h with h | h <;> simp [h]

/-- In deep research mode with gathered sources, `validate_sources` scores
every source with the fixed base credibility and reports their mean. -/
theorem validate_sources_mean (s : GraphState) (c : Configuration)
    (hd : s.deep_research_mode.getD false = true)
    (hs : s.sources_gathered ≠ []) :
    (validate_sources s c).source_credibility =
        (s.sources_gathered.map fun source =>
          { source := source
            credibility_score := 8/10
            analysis := "Source analysis would be performed here (Claude-specific if needed)" }) ∧
      (validate_sources s c).reliability_score = 8/10 := by
  have hlen : s.sources_gathered.length ≠ 0 := by
    simpa [List.length_eq_zero] using hs
  simp only [validate_sources]
  split
  case isTrue hc =>
    exfalso
    rw [hd] at hc
    simp [List.isEmpty_iff] at hc
    exact hs hc
  case isFalse hc =>
    refine ⟨rfl, ?_⟩
    have hmap : ((s.sources_gathered.map fun source =>
        ({ source := source
           credibility_score := 8/10
           analysis := "Source analysis would be performed here (Claude-specific if needed)" } :
          SourceCredibility)).map fun sc => sc.credibility_score) =
        s.sources_gathered.map fun _ => (8/10 : ℚ) := by
      rw [List.map_map]
      rfl
    dsimp only
    rw [hmap, List.length_map,
      max_eq_left (by exact_mod_cast Nat.one_le_iff_ne_zero.mpr hlen)]
    exact map_const_sum_div s.sources_gathered hs _

/-- C5: `evaluate_research` selects the `validate_sources` node exactly when
deep research mode is on, gathered sources exist, and the loop count
exceeds 2.  The guard is tested before the finalize condition and before
the follow-up dispatch, so when it holds it wins regardless of
`is_sufficient`, the loop budget, and the follow-up list. -/
theorem C5_validate_sources_guard (s : GraphState) (c : Configuration) :
    evaluate_research s c = Route.next "validate_sources" ↔
      (s.deep_research_mode.getD false = true ∧ s.sources_gathered ≠ [] ∧
        s.research_loop_count.getD 0 > 2) := by
  constructor
  · intro h
    simp only [evaluate_research] at h
    split at h
    case isTrue hg => exact (deep_guard_iff s).mp hg
    case isFalse hg =>
      split at h
      · exact absurd (Route.next.inj h) (by decide)
      · exact Route.noConfusion h
  · rintro ⟨h1, h2, h3⟩
    exact evaluate_research_validate_of s c h1 h2 h3

/-- Witness for C5 at a concrete deep-research state with three sources and
loop count 3. -/
theorem C5_witness :
    evaluate_research { deepSourcesState with research_loop_count := some 3 }
        { } = Route.next "validate_sources" :=
  (C5_validate_sources_guard _ { }).mpr ⟨rfl, by decide, by decide⟩

/-- C6: `validate_sources` returns reliability 1.0 with an empty
credibility list when `sources_gathered` is empty or deep research mode is
off, and otherwise returns the arithmetic mean of the per-source
credibility scores it computed (each the fixed base score 0.8, so the mean
is 0.8). -/
theorem C6_validate_sources_reliability (s : GraphState) (c : Configuration) :
    ((s.sources_gathered = [] ∨ s.deep_research_mode.getD false = false) →
      validate_sources s c =
        { validation_results := []
          reliability_score := 1
          contradictions_found := []
          source_credibility := [] }) ∧
    ((s.deep_research_mode.getD false = true ∧ s.sources_gathered ≠ []) →
      (validate_sources s c).source_credibility.length =
          s.sources_gathered.length ∧
        (validate_sources s c).reliability_score =
          ((validate_sources s c).source_credibility.map
            fun sc => sc.credibility_score).sum /
            ((validate_sources s c).source_credibility.length : ℚ)) := by
  refine ⟨validate_sources_skip s c, ?_⟩
  rintro ⟨hd, hs⟩
  obtain ⟨hcred, hrel⟩ := validate_sources_mean s c hd hs
  have hlen : (validate_sources s c).source_credibility.length =
      s.sources_gathered.length := by
    rw [hcred, List.length_map]
  refine ⟨hlen, ?_⟩
  have hlen0 : s.sources_gathered.length ≠ 0 := by
    simpa [List.length_eq_zero] using hs
  have hscores : ((validate_sources s c).source_credibility.map
      fun sc => sc.credibility_score) =
      s.sources_gathered.map fun _ => (8/10 : ℚ) := by
    rw [hcred, List.map_map]
    rfl
  rw [hrel, hscores, hlen]
  exact (map_const_sum_div s.sources_gathered hs _).symm

/-- Witness for C6: three gathered sources give the mean 0.8, and an empty
deep-research state gives the vacuous 1.0. -/
theorem C6_witness :
    validate_sources { deep_research_mode := some true } { } =
      { validation_results := []
        reliability_score := 1
        contradictions_found := []
        source_credibility := [] } ∧
    (validate_sources deepSourcesState { }).reliability_score =
      ((validate_sources deepSourcesState { }).source_credibility.map
        fun sc => sc.credibility_score).sum /
        ((validate_sources deepSourcesState { }).source_credibility.length : ℚ) :=
  ⟨(C6_validate_sources_reliability { deep_research_mode := some true } { }).1
    (Or.inl rfl),
   ((C6_validate_sources_reliability deepSourcesState { }).2
    ⟨rfl, by decide⟩).2⟩

/-- C9: `validate_sources` is total: its reliability score is always a
well-defined value (1 on the skip path, 0.8 otherwise — the division is by
`max(len, 1) ≥ 1`, never by zero), and every per-source credibility entry
carries the fixed neutral base score 0.8 rather than failing on missing
analysis data. -/
theorem C9_validate_sources_total (s : GraphState) (c : Configuration) :
    ((validate_sources s c).reliability_score = 1 ∨
      (validate_sources s c).reliability_score = 8/10) ∧
    (∀ sc ∈ (validate_sources s c).source_credibility,
      sc.credibility_score = 8/10) ∧
    1 ≤ max (validate_sources s c).source_credibility.length 1 := by
  by_cases hd : s.deep_research_mode.getD false = true
  · by_cases hs : s.sources_gathered = []
    · rw [validate_sources_skip s c (Or.inl hs)]
      exact ⟨Or.inl rfl, by simp, by simp⟩
    · obtain ⟨hcred, hrel⟩ := validate_sources_mean s c hd hs
      refine ⟨Or.inr hrel, ?_, le_max_right _ _⟩
      intro sc hsc
      rw [hcred] at hsc
      obtain ⟨src, -, rfl⟩ := List.mem_map.mp hsc
      rfl
  · have hd' : s.deep_research_mode.getD false = false := by
      cases hb : s.deep_research_mode.getD false
      · rfl
      · exact absurd hb hd
    rw [validate_sources_skip s c (Or.inr hd')]
    exact ⟨Or.inl rfl, by simp, by simp⟩

/-- Witness for C9 at a deep-research state with three sources. -/
theorem C9_witness :
    ((validate_sources deepSourcesState { }).reliability_score = 1 ∨
      (validate_sources deepSourcesState { }).reliability_score = 8/10) ∧
    (∀ sc ∈ (validate_sources deepSourcesState { }).source_credibility,
      sc.credibility_score = 8/10) :=
  ⟨(C9_validate_sources_total deepSourcesState { }).1,
   (C9_validate_sources_total deepSourcesState { }).2.1⟩

/-- C10: a state without the `initial_search_query_count` key is routed to
`generate_query` (the `state.get` default is 1), and the direct-response
path is selected exactly when the key is explicitly 0. -/
theorem C10_route_absent_key_defaults (s : GraphState) :
    (s.initial_search_query_count = none →
      route_search_mode s = "generate_query") ∧
    (route_search_mode s = "direct_llm_response" ↔
      s.initial_search_query_count = some 0) := by
  constructor
  · intro h
    unfold route_search_mode
    rw [h]
    rfl
  · unfold route_search_mode
    constructor
    · intro h
      split at h
      case isTrue hc =>
        cases hv : s.initial_search_query_count with
        | none => rw [hv] at hc; exact absurd hc (by decide)
        | some v =>
          rw [hv] at hc
          simp only [Option.getD_some] at hc
          rw [hc]
      case isFalse hc => exact absurd h (by decide)
    · intro h
      rw [if_pos (by rw [h]; rfl)]

/-- Witness for C10: the key-absent state routes to search; the explicit-0
state routes to the direct response. -/
theorem C10_witness :
    route_search_mode (initState ["q"] none none none) = "generate_query" ∧
    route_search_mode (initState ["q"] (some 0) none none) =
      "direct_llm_response" :=
  ⟨(C10_route_absent_key_defaults (initState ["q"] none none none)).1 rfl,
   (C10_route_absent_key_defaults (initState ["q"] (some 0) none none)).2.mpr rfl⟩

/-- C7: when the provider is unavailable (missing API key) or its
structured output is malformed (the call raises), `reflection` degrades to
the sentinel `is_sufficient = true` with no follow-up queries, and any
state carrying that sentinel is routed by `evaluate_research` to a single
next node (validation or finalization), never to another research
dispatch — the loop terminates at the next evaluation. -/
theorem C7_reflection_degrades (s : GraphState) (c : Configuration)
    (llm : Except String Reflection) :
    ((c.anthropic_api_key = none ∨ ∃ e, llm = Except.error e) →
      (reflection s c llm).is_sufficient = true ∧
        (reflection s c llm).follow_up_queries = []) ∧
    (∀ s' : GraphState, s'.is_sufficient = true →
      evaluate_research s' c = Route.next "validate_sources" ∨
        evaluate_research s' c = Route.next "finalize_answer") := by
  constructor
  · rintro (hk | ⟨e, rfl⟩)
    · exact reflection_sentinel_no_key s c llm hk
    · exact reflection_sentinel_error s c e
  · exact fun s' h => evaluate_research_sufficient s' c h

/-- Witness for C7: a raising reflection call yields the sentinel, and the
sentinel state is routed straight to finalization. -/
theorem C7_witness :
    (reflection { } { } (Except.error "boom")).is_sufficient = true ∧
    (reflection { } { } (Except.error "boom")).follow_up_queries = [] ∧
    evaluate_research { blankFollowUpState with is_sufficient := true } { } =
      Route.next "finalize_answer" := by
  obtain ⟨h1, h2⟩ := (C7_reflection_degrades { } { } (Except.error "boom")).1
    (Or.inr ⟨"boom", rfl⟩)
  refine ⟨h1, h2, ?_⟩
  rcases (C7_reflection_degrades { } { } (Except.error "boom")).2
      { blankFollowUpState with is_sufficient := true } rfl with h | h
  · exact absurd h (by decide)
  · exact h

/-- C2 counterexample: `is_sufficient` is false, the loop count 1 is below
the budget 2, and the follow-up list filters to empty (two blank entries) —
yet `evaluate_research` does not route to `finalize_answer`: it returns the
empty dispatch list, which leaves the run with no successor task. -/
theorem C2_counterexample :
    evaluate_research blankFollowUpState { } = Route.sends [] ∧
      evaluate_research blankFollowUpState { } ≠ Route.next "finalize_answer" :=
  ⟨by decide, by decide⟩

/-- C2 amended: in a state where the deep-research guard does not hold,
`is_sufficient` is false, the loop budget is not reached, and the follow-up
list is empty after filtering blank entries, `evaluate_research` dispatches
no further research branches — it returns the empty fan-out list rather
than routing to `finalize_answer`, so the cycle ends without reaching
finalization. -/
theorem C2_blank_followups_empty_dispatch (s : GraphState) (c : Configuration)
    (hd : ¬(s.deep_research_mode.getD false = true ∧ s.sources_gathered ≠ [] ∧
      s.research_loop_count.getD 0 > 2))
    (hs : s.is_sufficient = false)
    (hl : s.research_loop_count.getD 0 <
      s.max_research_loops.getD c.max_research_loops)
    (hf : s.follow_up_queries.filter (fun q => q != "") = []) :
    evaluate_research s c = Route.sends [] := by
  rw [evaluate_research_continue_of s c hd hs hl]
  have hnil : s.follow_up_queries.enum.filter (fun p => p.2 != "") = [] := by
    rw [List.filter_eq_nil_iff] at hf ⊢
    intro a ha
    have hmem : a.2 ∈ s.follow_up_queries := by
      rw [List.enum_eq_zip_range] at ha
      exact (List.of_mem_zip ha).2
    exact hf a.2 hmem
  rw [hnil]
  rfl

/-- Witness for the amended C2 at the blank-follow-up state under a larger
loop budget. -/
theorem C2_witness :
    evaluate_research blankFollowUpState cfgC3 = Route.sends [] :=
  C2_blank_followups_empty_dispatch blankFollowUpState cfgC3
    (by decide) rfl (by decide) (by decide)

/-- Both branches of the direct response contribute no sources. -/
theorem direct_llm_response_sources (s : GraphState) (c : Configuration)
    (a : String) : (direct_llm_response s c a).sources_gathered = [] := by
  unfold direct_llm_response
  split <;> rfl

/-- C8: a run whose initial state sets `initial_search_query_count := 0`
goes START → direct_llm_response → END: it is done by step 2, it only ever
occupies the start/direct/done positions (so no `web_research` fan-out is
ever dispatched), and `sources_gathered` stays empty throughout. -/
theorem C8_direct_path (env : Env) (config : Configuration)
    (msgs : List String) (mrl : Option Int) (deep : Option Bool) :
    ((run env config (initState msgs (some 0) mrl deep) 1).1 = Pos.direct ∧
      (run env config (initState msgs (some 0) mrl deep) 2).1 = Pos.done) ∧
    (∀ n, ((run env config (initState msgs (some 0) mrl deep) n).1 = Pos.start ∨
        (run env config (initState msgs (some 0) mrl deep) n).1 = Pos.direct ∨
        (run env config (initState msgs (some 0) mrl deep) n).1 = Pos.done) ∧
      (run env config (initState msgs (some 0) mrl deep) n).2.sources_gathered = []) ∧
    (∀ n ts,
      (run env config (initState msgs (some 0) mrl deep) n).1 ≠ Pos.fanout ts) := by
  have hroute : ∀ n, route_search_mode
      (run env config (initState msgs (some 0) mrl deep) n).2 =
        "direct_llm_response" := by
    intro n
    unfold route_search_mode
    rw [(config_fields_const env config (initState msgs (some 0) mrl deep) n).2.2]
    rfl
  have hinv : ∀ n,
      ((run env config (initState msgs (some 0) mrl deep) n).1 = Pos.start ∨
        (run env config (initState msgs (some 0) mrl deep) n).1 = Pos.direct ∨
        (run env config (initState msgs (some 0) mrl deep) n).1 = Pos.done) ∧
      (run env config (initState msgs (some 0) mrl deep) n).2.sources_gathered = [] := by
    intro n
    induction n with
    | zero => exact ⟨Or.inl (by rw [run_zero]), by rw [run_zero]; rfl⟩
    | succ n ih =>
      obtain ⟨hpos, hsrc⟩ := ih
      rcases step_cases env config (initState msgs (some 0) mrl deep) n with
        ⟨hp, hst, hr⟩ | ⟨hp, h2, hst⟩ | ⟨hp, h2, hst⟩ | ⟨ts, hp, h2, hst⟩ | ⟨hp, h2, hst⟩ |
        ⟨hp, hst, hr⟩ | ⟨hp, h2, hst⟩ | ⟨hp, h2, hst⟩ | ⟨hp, h2, hst⟩ | ⟨hp, h2, hst⟩
      · -- from START: the route is always the direct response
        rcases hr with ⟨-, hd⟩ | ⟨hne, -⟩
        · exact ⟨Or.inr (Or.inl hd), by rw [hst]; exact hsrc⟩
        · exact absurd (hroute n) hne
      · -- from direct: done, and the contribution is empty
        refine ⟨Or.inr (Or.inr h2), ?_⟩
        rw [hst]
        dsimp only
        rw [direct_llm_response_sources, hsrc]
        rfl
      · rcases hpos with h | h | h <;> rw [hp] at h <;> exact Pos.noConfusion h
      · rcases hpos with h | h | h <;> rw [hp] at h <;> exact Pos.noConfusion h
      · rcases hpos with h | h | h <;> rw [hp] at h <;> exact Pos.noConfusion h
      · rcases hpos with h | h | h <;> rw [hp] at h <;> exact Pos.noConfusion h
      · rcases hpos with h | h | h <;> rw [hp] at h <;> exact Pos.noConfusion h
      · rcases hpos with h | h | h <;> rw [hp] at h <;> exact Pos.noConfusion h
      · exact ⟨Or.inr (Or.inr h2), by rw [hst]; exact hsrc⟩
      · rcases hpos with h | h | h <;> rw [hp] at h <;> exact Pos.noConfusion h
  have h1 : (run env config (initState msgs (some 0) mrl deep) 1).1 = Pos.direct := by
    rw [run_succ_pos env config (initState msgs (some 0) mrl deep) 0 Pos.start
      (by rw [run_zero])]
    simp [step, hroute 0]
  have h2 : (run env config (initState msgs (some 0) mrl deep) 2).1 = Pos.done := by
    rw [run_succ_pos env config (initState msgs (some 0) mrl deep) 1 Pos.direct h1]
    rfl
  refine ⟨⟨h1, h2⟩, hinv, ?_⟩
  intro n ts h
  rcases (hinv n).1 with h' | h' | h' <;> rw [h] at h' <;> exact Pos.noConfusion h'

/-- Witness for C8 at a concrete environment. -/
theorem C8_witness :
    (run insatiableEnv { } (initState ["q"] (some 0) none none) 2).1 = Pos.done ∧
    (run insatiableEnv { } (initState ["q"] (some 0) none none) 5).2.sources_gathered = [] ∧
    (run insatiableEnv { } (initState ["q"] (some 0) none none) 7).1 ≠ Pos.fanout [] :=
  ⟨(C8_direct_path insatiableEnv { } ["q"] none none).1.2,
   ((C8_direct_path insatiableEnv { } ["q"] none none).2.1 5).2,
   (C8_direct_path insatiableEnv { } ["q"] none none).2.2 7 []⟩

/-- C4: on a fresh run the loop counter (i) changes only at a reflection
step, by exactly +1, (ii) is monotonically non-decreasing, (iii) always
equals the number of reflection steps executed so far, (iv) every
evaluation immediately follows a reflection, (v) at the k-th execution of
the evaluation step the counter equals k, and (vi) an evaluation at or past
the loop budget immediately routes to validation or finalization — the
counter never exceeds the budget without the run finalizing in the same
cycle. -/
theorem C4_loop_count_dynamics (env : Env) (config : Configuration)
    (init : GraphState) (hinit : init.research_loop_count = none) (n : Nat) :
    ((run env config init (n + 1)).2.research_loop_count.getD 0 =
      (run env config init n).2.research_loop_count.getD 0 +
        (if (run env config init n).1 = Pos.reflect then 1 else 0)) ∧
    ((run env config init n).2.research_loop_count.getD 0 ≤
      (run env config init (n + 1)).2.research_loop_count.getD 0) ∧
    ((run env config init n).2.research_loop_count.getD 0 =
      (reflectSteps env config init n : Int)) ∧
    ((run env config init (n + 1)).1 = Pos.evaluate →
      (run env config init n).1 = Pos.reflect) ∧
    ((run env config init n).1 = Pos.evaluate →
      (run env config init n).2.research_loop_count.getD 0 =
        (evaluateSteps env config init n : Int) + 1) ∧
    ((run env config init n).1 = Pos.evaluate →
      init.max_research_loops.getD config.max_research_loops ≤
        (run env config init n).2.research_loop_count.getD 0 →
      ((run env config init (n + 1)).1 = Pos.validate ∨
        (run env config init (n + 1)).1 = Pos.finalize)) := by
  refine ⟨loop_succ env config init n, ?_,
    loop_eq_reflectSteps env config init hinit n,
    pred_evaluate env config init n, ?_, ?_⟩
  · rw [loop_succ]
    split <;> omega
  · intro h
    cases n with
    | zero =>
      rw [run_zero] at h
      exact Pos.noConfusion h
    | succ m =>
      have hm := pred_evaluate env config init m h
      have e1 := evaluateSteps_shift env config init m
      have r1 : reflectSteps env config init (m + 1) =
          reflectSteps env config init m + 1 := by
        rw [reflectSteps_succ, if_pos hm]
      rw [loop_eq_reflectSteps env config init hinit (m + 1), r1, e1]
      push_cast
      ring
  · intro h hge
    have hb := evaluate_research_budget (run env config init n).2 config
      (by rw [(config_fields_const env config init n).1]; exact hge)
    rcases hb with hb | hb
    · have h1 := forward_evaluate_next env config init n _ h hb
      rw [if_pos rfl] at h1
      exact Or.inl h1.1
    · have h1 := forward_evaluate_next env config init n _ h hb
      rw [if_neg (by decide)] at h1
      exact Or.inr h1.1

/-- Witness for C4: on the concrete insatiable run the counter after four
steps equals the single reflection executed, and the evaluation at step 4
directly follows the reflection at step 3. -/
theorem C4_witness :
    (run insatiableEnv keyedConfig (initState ["q"] (some 1) none none) 4).2.research_loop_count.getD 0 =
      (reflectSteps insatiableEnv keyedConfig (initState ["q"] (some 1) none none) 4 : Int) ∧
    (run insatiableEnv keyedConfig (initState ["q"] (some 1) none none) 3).1 = Pos.reflect :=
  ⟨(C4_loop_count_dynamics insatiableEnv keyedConfig
      (initState ["q"] (some 1) none none) rfl 4).2.2.1,
   (C4_loop_count_dynamics insatiableEnv keyedConfig
      (initState ["q"] (some 1) none none) rfl 3).2.2.2.1 (by decide)⟩

/-- The fixed insatiable oracle always returns a parsed reflection whose
follow-up list is non-empty and blank-free. -/
theorem insatiableEnv_demands_more :
    ∀ j r, insatiableEnv.reflections j = Except.ok r →
      r.follow_up_queries ≠ [] ∧ ∀ q ∈ r.follow_up_queries, q ≠ "" := by
  intro j r h
  simp only [insatiableEnv] at h
  obtain rfl := (Except.ok.inj h).symm
  exact ⟨by decide, by decide⟩

/-- C1: (i) whenever `evaluate_research` runs with the loop count at or
past the budget it routes to finalization, directly or via
`validate_sources` (whose only outgoing edge is `finalize_answer`); and on
every search-mode run with budget at least 1 whose parsed reflections are
never sufficient yet always demand more non-empty, non-blank follow-up
queries, (ii) the run still reaches the `finalize_answer` position with the
loop count within the budget, and (iii) no evaluation ever runs with the
counter above the budget. -/
theorem C1_terminates_within_budget (env : Env) (config : Configuration)
    (msgs : List String) (iqc mrl : Option Int) (deep : Option Bool)
    (hroute : iqc.getD 1 ≠ 0)
    (hM : 1 ≤ mrl.getD config.max_research_loops)
    (horacle : ∀ j r, env.reflections j = Except.ok r →
      r.follow_up_queries ≠ [] ∧ ∀ q ∈ r.follow_up_queries, q ≠ "") :
    (∀ s : GraphState,
      s.max_research_loops.getD config.max_research_loops ≤
        s.research_loop_count.getD 0 →
      evaluate_research s config = Route.next "validate_sources" ∨
        evaluate_research s config = Route.next "finalize_answer") ∧
    (∃ m, (run env config (initState msgs iqc mrl deep) m).1 = Pos.finalize ∧
      (run env config (initState msgs iqc mrl deep) m).2.research_loop_count.getD 0 ≤
        mrl.getD config.max_research_loops) ∧
    (∀ n, (run env config (initState msgs iqc mrl deep) n).1 = Pos.evaluate →
      (run env config (initState msgs iqc mrl deep) n).2.research_loop_count.getD 0 ≤
        mrl.getD config.max_research_loops) := by
  have hinit : (initState msgs iqc mrl deep).research_loop_count = none := rfl
  have hMi : 1 ≤ (initState msgs iqc mrl deep).max_research_loops.getD
      config.max_research_loops := hM
  refine ⟨fun s hs => evaluate_research_budget s config hs, ?_,
    fun n h => loop_le_max_at_evaluate env config _ hinit hMi n h⟩
  have h0 : (run env config (initState msgs iqc mrl deep) 0).1 = Pos.start := by
    rw [run_zero]
  have hs0 : (run env config (initState msgs iqc mrl deep) 0).2 =
      initState msgs iqc mrl deep := by
    rw [run_zero]
  have h1 : (run env config (initState msgs iqc mrl deep) 1).1 = Pos.genQuery := by
    rw [run_succ_pos env config _ 0 Pos.start h0]
    have hne : route_search_mode
        (run env config (initState msgs iqc mrl deep) 0).2 ≠
          "direct_llm_response" := by
      rw [hs0]
      unfold route_search_mode initState
      dsimp only
      rw [if_neg hroute]
      decide
    simp [step, hne]
  have h2 : (run env config (initState msgs iqc mrl deep) 2).1 =
      Pos.fanout (continue_to_web_research
        { search_query := generate_query
            (run env config (initState msgs iqc mrl deep) 1).2 config
            env.genQueries }) := by
    rw [run_succ_pos env config _ 1 Pos.genQuery h1]
    rfl
  have h3 := forward_fanout env config _ 2 _ h2
  have h4 := forward_reflect env config _ 3 h3
  obtain ⟨m, -, hfin, hle⟩ :=
    reach_finalize_from_evaluate env config _ hinit hMi horacle
      ((initState msgs iqc mrl deep).max_research_loops.getD
          config.max_research_loops -
        (run env config (initState msgs iqc mrl deep) 4).2.research_loop_count.getD 0).toNat
      4 h4 (le_refl _)
  exact ⟨m, hfin, hle⟩

/-- Witness for C1 on the insatiable oracle with the default budget 2. -/
theorem C1_witness :
    ∃ m, (run insatiableEnv keyedConfig (initState ["q"] (some 1) none none) m).1 =
        Pos.finalize ∧
      (run insatiableEnv keyedConfig (initState ["q"] (some 1) none none) m).2.research_loop_count.getD 0 ≤
        (none : Option Int).getD keyedConfig.max_research_loops :=
  (C1_terminates_within_budget insatiableEnv keyedConfig ["q"] (some 1) none none
    (by decide) (by decide) insatiableEnv_demands_more).2.1

/-- C3 counterexample, on the concrete run whose first reflection returns
the follow-ups `["x", "", "y"]` and whose second returns `["z"]`: the
initial fan-out dispatches id 0; the first follow-up fan-out (exactly one
branch dispatched before it) carries ids 2 and 4 — offset 2, not 1, because
`number_of_ran_queries` counts the initial query twice (once from
`generate_query`, once re-appended by the `web_research` branch); and the
next follow-up fan-out carries id 4 again, because the blank entry makes
the enumerate index outrun the count of dispatched branches.  So both the
claimed offset law and the claimed global id uniqueness fail. -/
theorem C3_counterexample :
    (run envC3 cfgC3 initC3 2).1 = Pos.fanout
      [{ node := "web_research", search_query := "q0", id := 0 }] ∧
    (run envC3 cfgC3 initC3 5).1 = Pos.fanout
      [{ node := "web_research", search_query := "x", id := 2 },
       { node := "web_research", search_query := "y", id := 4 }] ∧
    (run envC3 cfgC3 initC3 8).1 = Pos.fanout
      [{ node := "web_research", search_query := "z", id := 4 }] :=
  ⟨by decide, by decide, by decide⟩

/-- C3 amended: (i) the initial fan-out over N queries dispatches exactly N
branches with ids 0..N-1; and on every fresh run whose parsed reflections
carry only non-blank follow-up queries, (ii) ids within one fan-out are
pairwise distinct, (iii) no id is ever reused across fan-outs, and (iv)
every follow-up fan-out is offset by the current length of the accumulated
`search_query` list — not by the number of branches dispatched in prior
cycles (the accumulated list also re-counts each initial query). -/
theorem C3_branch_ids (env : Env) (config : Configuration)
    (msgs : List String) (iqc mrl : Option Int) (deep : Option Bool)
    (hbf : ∀ j r, env.reflections j = Except.ok r →
      ∀ q ∈ r.follow_up_queries, q ≠ "") :
    (∀ qs : List String,
      (continue_to_web_research { search_query := qs }).length = qs.length ∧
      (continue_to_web_research { search_query := qs }).map Send.id =
        (List.range qs.length).map Int.ofNat) ∧
    (∀ n ts, (run env config (initState msgs iqc mrl deep) n).1 = Pos.fanout ts →
      (ts.map Send.id).Nodup) ∧
    (∀ m n ts₁ ts₂, m < n →
      (run env config (initState msgs iqc mrl deep) m).1 = Pos.fanout ts₁ →
      (run env config (initState msgs iqc mrl deep) n).1 = Pos.fanout ts₂ →
      ∀ t₁ ∈ ts₁, ∀ t₂ ∈ ts₂, t₁.id ≠ t₂.id) ∧
    (∀ n ts, 3 ≤ n →
      (run env config (initState msgs iqc mrl deep) n).1 = Pos.fanout ts →
      ts.map Send.id = (List.range ts.length).map
        fun i : Nat =>
          ((run env config (initState msgs iqc mrl deep) n).2.search_query.length : Int) + i) := by
  refine ⟨fun qs => ⟨(continue_to_web_research_ids qs).2,
    (continue_to_web_research_ids qs).1⟩, ?_, ?_, ?_⟩
  · intro n ts h
    obtain ⟨base, hids, -, -, -⟩ :=
      fanout_ids_range env config _ hbf n ts h
    exact ids_nodup ts base hids
  · intro m n ts₁ ts₂ hmn h₁ h₂ t₁ ht₁ t₂ ht₂
    obtain ⟨b₁, hids₁, hb₁0, hb₁u, -⟩ :=
      fanout_ids_range env config _ hbf m ts₁ h₁
    obtain ⟨b₂, hids₂, hb₂0, hb₂u, hcase₂⟩ :=
      fanout_ids_range env config _ hbf n ts₂ h₂
    obtain ⟨hl₁, hu₁⟩ := id_mem_bounds ts₁ b₁ hids₁ t₁ ht₁
    obtain ⟨hl₂, hu₂⟩ := id_mem_bounds ts₂ b₂ hids₂ t₂ ht₂
    rcases hcase₂ with hc | ⟨hn2, -⟩
    · have hmono := search_query_len_mono_le env config
        (initState msgs iqc mrl deep) (m + 1) n (by omega)
      have hmono' : (((run env config (initState msgs iqc mrl deep) (m + 1)).2.search_query.length : Int)) ≤
          ((run env config (initState msgs iqc mrl deep) n).2.search_query.length : Int) := by
        exact_mod_cast hmono
      omega
    · exfalso
      subst hn2
      interval_cases m
      · rw [run_zero] at h₁
        exact Pos.noConfusion h₁
      · rcases pred_fanout env config _ 0 ts₁ h₁ with ⟨hg, -, -⟩ | ⟨he, -, -, -⟩
        · rw [run_zero] at hg
          exact Pos.noConfusion hg
        · rw [run_zero] at he
          exact Pos.noConfusion he
  · intro n ts h3 h
    obtain ⟨base, hids, -, hupper, hcase⟩ :=
      fanout_ids_range env config _ hbf n ts h
    rcases hcase with hc | ⟨hn2, -⟩
    · have hgrow := search_query_len_fanout env config _ n ts h
      have hgrow' : ((run env config (initState msgs iqc mrl deep) (n + 1)).2.search_query.length : Int) =
          ((run env config (initState msgs iqc mrl deep) n).2.search_query.length : Int) +
            (ts.length : Int) := by
        exact_mod_cast hgrow
      have hbase : base =
          ((run env config (initState msgs iqc mrl deep) n).2.search_query.length : Int) := by
        omega
      rw [hids, hbase]
    · omega

/-- The fixed insatiable oracle is blank-free. -/
theorem insatiableEnv_blankfree :
    ∀ j r, insatiableEnv.reflections j = Except.ok r →
      ∀ q ∈ r.follow_up_queries, q ≠ "" :=
  fun j r h => (insatiableEnv_demands_more j r h).2

/-- Witness for the amended C3: on the insatiable run the initial branch id
0 (step 2) differs from the follow-up branch id 2 (step 5). -/
theorem C3_witness :
    ({ node := "web_research", search_query := "seed query", id := 0 } : Send).id ≠
      ({ node := "web_research", search_query := "follow-up", id := 2 } : Send).id :=
  (C3_branch_ids insatiableEnv keyedConfig ["q"] (some 1) none none
      insatiableEnv_blankfree).2.2.1 2 5
    [{ node := "web_research", search_query := "seed query", id := 0 }]
    [{ node := "web_research", search_query := "follow-up", id := 2 }]
    (by omega) (by decide) (by decide) _ (by simp) _ (by simp)

end Lemmas

end ClaudeGraph
